import Mathlib

/-!
# Ship game: command dispatcher and ship factory

A shallow embedding of `project6/Controller.cpp` and `project6/Ship_factory.cpp`.

* `std::cin` is an `Istream`: the characters not yet consumed and the fail state.
* The classes the two files call into (`Model`, `Ship`, the views, `Error`) are not
  part of the two files.  Their data is modelled from the specification; the
  behaviour that the specification leaves open is a field of `Ext`, so every
  theorem over `E : Ext` holds whatever those functions do.
* Member functions of the `Controller` are functions `World → Except Exn α × World`
  (`Op α`): a thrown exception keeps the state reached when it was thrown.
* `World.calls` is a history variable: the mutators of `Model`, `Ship` and the
  views that were invoked, and the handlers that `run` invoked, in order.
-/

namespace ShipGame

/-! ## Values -/

/-- The exceptions `Controller::run` distinguishes: `Error` (first `catch`) and any
other `std::exception` (second `catch`). -/
inductive Exn where
  | Error (msg : String)
  | other (what : String)
  deriving DecidableEq

deriving instance DecidableEq for Except

/-- A `double` that was read successfully from a stream is finite, hence a rational
number; comparisons of finite doubles are comparisons of their values. -/
abbrev Double := Rat

/-- The class `Point` of `Geometry.h`: a pair of coordinates. -/
structure Point where
  x : Double
  y : Double
  deriving DecidableEq

/-- The four concrete ship classes that `Ship_factory.cpp` constructs. -/
inductive ShipKind where
  | Cruiser
  | Tanker
  | Cruise_ship
  | Torpedo_boat
  deriving DecidableEq

/-- The member functions of `Ship` that the `Controller` calls, with their arguments
(islands and target ships are named by their key in the `Model`). -/
inductive ShipOp where
  | set_course_and_speed (course speed : Double)
  | set_destination_position_and_speed (destination : Point) (speed : Double)
  | set_destination_island_and_speed (island : String) (speed : Double)
  | set_load_destination (island : String)
  | set_unload_destination (island : String)
  | dock (island : String)
  | attack (target : String)
  | refuel
  | stop
  | stop_attack
  deriving DecidableEq

/-- Modelled from the spec: the class `Ship` and its subclasses are not in the source.
A ship has its concrete kind, its name, the position it was built at and, as its
command sub-state, the operations it accepted since it was built. -/
structure Ship where
  kind : ShipKind
  name : String
  position : Point
  orders : List ShipOp
  deriving DecidableEq

/-- Modelled from the spec: the three view classes of `Views.h`, which is not in the
source. -/
inductive ViewKind where
  | Map_view
  | Sailing_view
  | Bridge_view (ship_name : String)
  deriving DecidableEq

/-- A view object: `id` is the identity of the object that `make_shared` allocated. -/
structure View where
  id : Nat
  kind : ViewKind
  deriving DecidableEq

/-- A `shared_ptr<View>`: `none` is the null pointer. -/
abbrev ViewPtr := Option View

/-- The member functions of `Map_view` that the `Controller` calls. -/
inductive ViewOp where
  | set_defaults
  | set_size (size : Int)
  | set_scale (scale : Double)
  | set_origin (origin : Point)
  deriving DecidableEq

/-! ## The input stream -/

/-- The state of `std::cin`: the characters not yet extracted, and whether `failbit`
is set (formatted and unformatted input do nothing until `clear()`). -/
structure Istream where
  buf : List Char
  fail : Bool
  deriving DecidableEq

/-- The characters `std::isspace` accepts in the "C" locale. -/
def isspace (c : Char) : Bool :=
  c = ' ' || c = '\t' || c = '\n' || c = '\x0b' || c = '\x0c' || c = '\r'

/-- Skip leading whitespace (what the sentry of a formatted extraction does). -/
def skipws : List Char → List Char
  | [] => []
  | c :: cs => if isspace c then skipws cs else c :: cs

/-- The longest prefix without whitespace, and what follows it. -/
def take_word : List Char → List Char × List Char
  | [] => ([], [])
  | c :: cs =>
    if isspace c then ([], c :: cs)
    else ((take_word cs).1.cons c, (take_word cs).2)

namespace Istream

/-- The statement `is >> word` for a `std::string` that is empty before: skips
whitespace and extracts up to the next whitespace; when nothing can be extracted
the word stays empty and `failbit` is set. -/
def extract_word (s : Istream) : String × Istream :=
  if s.fail then ("", s)
  else
    match take_word (skipws s.buf) with
    | ([], rest) => ("", { buf := rest, fail := true })
    | (c :: cs, rest) => (String.mk (c :: cs), { buf := rest, fail := false })

/-- The call `is.get()`: `none` stands for `Traits::eof()`. -/
def get (s : Istream) : Option Char × Istream :=
  if s.fail then (none, s)
  else
    match s.buf with
    | [] => (none, { buf := [], fail := true })
    | c :: cs => (some c, { buf := cs, fail := false })

/-- The call `is.clear()`. -/
def clear (s : Istream) : Istream :=
  { buf := s.buf, fail := false }

end Istream

/-! ## What the source does not contain -/

/-- Modelled from the spec: the `Model` singleton is not in the source.  It owns the
ships and islands by name (keys unique, case-sensitive), the tick counter and the
attached observers in insertion order. -/
structure Model where
  time : Nat
  ships : List (String × Ship)
  islands : List String
  views : List ViewPtr
  deriving DecidableEq

/-- The behaviour of the code outside the two source files that the specification
leaves open. -/
structure Ext where
  /-- The conversion of `is >> d` for a `double`, applied after whitespace was skipped:
  the value when one was read, and the characters left. -/
  read_double : List Char → Option Double × List Char
  /-- The conversion of `is >> n` for an `int`. -/
  read_int : List Char → Option Int × List Char
  /-- The exception a member function of `Ship` throws, if it throws, for the ship
  stored under that name. -/
  ship_op_throws : Model → String → ShipOp → Option Exn
  /-- The exception a member function of `Map_view` throws, if it throws. -/
  view_op_throws : ViewOp → Option Exn
  /-- What one tick does to the ships of the `Model`. -/
  update_ships : List (String × Ship) → List (String × Ship)
  /-- The constructors `Cruiser(is)`, `Tanker(is)`, ...: the ship read from the
  record (its kind is the constructor's) or the exception thrown, and the stream
  after it. -/
  ship_from_stream : ShipKind → Istream → Except Exn Ship × Istream
  /-- The copy assignment of `Ship`, `stored = source`: the state of the stored object
  afterwards. -/
  ship_assign : Ship → Ship → Ship
  /-- The exception of `Model::get_ship_ptr` for a name that is no ship. -/
  ship_not_found : Exn
  /-- The exception of `Model::get_island_ptr` for a name that is no island. -/
  island_not_found : Exn

namespace Istream

/-- The statement `is >> number` for a `double`. -/
def extract_double (E : Ext) (s : Istream) : Option Double × Istream :=
  if s.fail then (none, s)
  else
    match E.read_double (skipws s.buf) with
    | (some v, rest) => (some v, { buf := rest, fail := false })
    | (none, rest) => (none, { buf := rest, fail := true })

/-- The statement `is >> number` for an `int`. -/
def extract_int (E : Ext) (s : Istream) : Option Int × Istream :=
  if s.fail then (none, s)
  else
    match E.read_int (skipws s.buf) with
    | (some v, rest) => (some v, { buf := rest, fail := false })
    | (none, rest) => (none, { buf := rest, fail := true })

end Istream

namespace Model

/-- Modelled from the spec: the call `Model::is_ship_present(name)`, the name is the
key of a ship. -/
def is_ship_present (m : Model) (name : String) : Bool :=
  (m.ships.lookup name).isSome

/-- Modelled from the spec: the call `Model::get_ship_ptr(name)`, the ship of that
name, an exception when there is none. -/
def get_ship_ptr (E : Ext) (m : Model) (name : String) : Except Exn Ship :=
  match m.ships.lookup name with
  | some s => .ok s
  | none => .error E.ship_not_found

/-- Modelled from the spec: the call `Model::get_island_ptr(name)`, the island of that
name, an exception when there is none. -/
def get_island_ptr (E : Ext) (m : Model) (name : String) : Except Exn String :=
  if name ∈ m.islands then .ok name else .error E.island_not_found

/-- Modelled from the spec: the call `Model::is_name_in_use(name)`, the name is the
key of a ship or of an island. -/
def is_name_in_use (m : Model) (name : String) : Bool :=
  m.is_ship_present name || decide (name ∈ m.islands)

/-- Modelled from the spec: the call `Model::add_ship(ship)`, the ship is entered
under its name (a name that is already a key keeps its entity). -/
def add_ship (m : Model) (s : Ship) : Model :=
  if m.is_ship_present s.name then m
  else { m with ships := m.ships ++ [(s.name, s)] }

/-- Modelled from the spec: the call `Model::update()`, the tick counter advances by
one and the ships are updated. -/
def update (E : Ext) (m : Model) : Model :=
  { m with time := m.time + 1, ships := E.update_ships m.ships }

/-- Modelled from the spec: the call `Model::attach(view)`, the view is the last
observer. -/
def attach (m : Model) (v : ViewPtr) : Model :=
  { m with views := m.views ++ [v] }

/-- Modelled from the spec: the call `Model::detach(view)`, the view is no observer
any more. -/
def detach (m : Model) (v : ViewPtr) : Model :=
  { m with views := m.views.filter (fun p => p != v) }

/-- Change the entity stored under `name` in place (the key stays where it is). -/
def assign_ship (ships : List (String × Ship)) (name : String) (f : Ship → Ship) :
    List (String × Ship) :=
  ships.map (fun e => if e.1 = name then (e.1, f e.2) else e)

/-- The names of the ships of the `Model`. -/
def ship_names (m : Model) : List String :=
  m.ships.map Prod.fst

end Model

/-! ## `Ship_factory.cpp` -/

/-- The type word of a concrete ship class. -/
def ShipKind.type_name : ShipKind → String
  | .Cruiser => "Cruiser"
  | .Tanker => "Tanker"
  | .Cruise_ship => "Cruise_ship"
  | .Torpedo_boat => "Torpedo_boat"

/-- Modelled from the spec: the constructors `Cruiser(name, position)`,
`Tanker(name, position)`, ... are not in the source; a new ship of that kind that has
accepted no operation yet. -/
def Ship.construct (kind : ShipKind) (name : String) (position : Point) : Ship :=
  { kind := kind, name := name, position := position, orders := [] }

/-- The function `create_ship` of `Ship_factory.cpp`. -/
def create_ship (name type : String) (initial_position : Point) : Except Exn Ship :=
  if type = "Cruiser" then
    .ok (Ship.construct .Cruiser name initial_position)
  else if type = "Tanker" then
    .ok (Ship.construct .Tanker name initial_position)
  else if type = "Cruise_ship" then
    .ok (Ship.construct .Cruise_ship name initial_position)
  else if type = "Torpedo_boat" then
    .ok (Ship.construct .Torpedo_boat name initial_position)
  else
    .error (.Error "Trying to create ship of unknown type!")

/-- How a call of `restore_ship` ends. -/
inductive Restored where
  /-- The function returned this pointer. -/
  | returned (ship : Ship)
  /-- An exception left the function. -/
  | threw (e : Exn)
  /-- The function dereferenced a null `shared_ptr<Ship>` (`new_ship->get_name()`
  with `new_ship` empty): undefined behaviour. -/
  | null_dereference
  deriving DecidableEq

/-- An assignment `stored = source` through a `Ship&`: the copy assignment of `Ship`
runs, and the stored object keeps its class whatever the kind of the source. -/
def Ship.assigned (E : Ext) (stored source : Ship) : Ship :=
  { (E.ship_assign stored source) with kind := stored.kind }

/-- The statement `*(Model::get_instance().get_ship_ptr(name)) = *new_ship`: the
object stored under the name is assigned the new ship. -/
def assign_in_place (E : Ext) (m : Model) (name : String) (new_ship : Ship) : Model :=
  { m with ships := Model.assign_ship m.ships name (fun stored => stored.assigned E new_ship) }

/-- The second half of `restore_ship`, from `new_ship->get_name()` on. -/
def restore_finish (E : Ext) (m : Model) : Option Ship → Restored × Model
  | none => (.null_dereference, m)
  | some new_ship =>
    if m.is_ship_present new_ship.name then
      (.returned new_ship, assign_in_place E m new_ship.name new_ship)
    else
      (.returned new_ship, m)

/-- The branch of `restore_ship` that builds `new_ship` with the stream constructor
of one kind. -/
def restore_as (E : Ext) (kind : ShipKind) (is : Istream) (m : Model) :
    Restored × Istream × Model :=
  match E.ship_from_stream kind is with
  | (.ok s, is2) =>
    let r := restore_finish E m (some { s with kind := kind })
    (r.1, is2, r.2)
  | (.error e, is2) => (.threw e, is2, m)

/-- The function `restore_ship` of `Ship_factory.cpp`, on the stream `is` and the
`Model` singleton. -/
def restore_ship (E : Ext) (is : Istream) (m : Model) : Restored × Istream × Model :=
  let type := is.extract_word.1
  let is1 := is.extract_word.2
  if type = "Cruiser" then restore_as E .Cruiser is1 m
  else if type = "Tanker" then restore_as E .Tanker is1 m
  else if type = "Cruise_ship" then restore_as E .Cruise_ship is1 m
  else if type = "Torpedo_boat" then restore_as E .Torpedo_boat is1 m
  else
    let r := restore_finish E m none
    (r.1, is1, r.2)

/-! ## `Controller.cpp`: state -/

/-- The handlers of the table `ship_cmds` (pointers to member functions of the
`Controller` that take a ship). -/
inductive ShipCmd where
  | course_cmd
  | position_cmd
  | destination_cmd
  | load_at_cmd
  | unload_at_cmd
  | dock_at_cmd
  | attack_cmd
  | refuel_cmd
  | stop_cmd
  | stop_attack_cmd
  deriving DecidableEq

/-- The handlers of the table `view_model_cmds` (pointers to member functions of the
`Controller` without argument). -/
inductive ViewModelCmd where
  | default_cmd
  | size_cmd
  | zoom_cmd
  | pan_cmd
  | show_cmd
  | status_cmd
  | go_cmd
  | create_cmd
  | open_map_view_cmd
  | close_map_view_cmd
  | open_sailing_view
  | close_sailing_view
  | open_bridge_view
  | close_bridge_view
  deriving DecidableEq

/-- An entry of the history variable `World.calls`. -/
inductive Call where
  /-- The loop of `run` called `quit_cmd`. -/
  | quit_cmd
  /-- The loop of `run` called a handler of `ship_cmds` on the ship of that name. -/
  | ship_cmd (h : ShipCmd) (ship : String)
  /-- The loop of `run` called a handler of `view_model_cmds`. -/
  | view_model_cmd (h : ViewModelCmd)
  | Model_update
  | Model_add_ship (s : Ship)
  | Model_attach (v : ViewPtr)
  | Model_detach (v : ViewPtr)
  | Model_describe
  /-- A member function of the ship of that name was called. -/
  | Ship_op (ship : String) (op : ShipOp)
  /-- A member function of the map view was called. -/
  | View_op (v : ViewPtr) (op : ViewOp)
  | View_draw (v : ViewPtr)
  deriving DecidableEq

/-- What the `Controller` itself writes to `std::cout`. -/
inductive Output where
  /-- The prompt with the time of the `Model`. -/
  | prompt (time : Nat)
  /-- A line of text: `cout << text << endl`. -/
  | line (text : String)
  deriving DecidableEq

/-- The state the `Controller` works on: `std::cin`, `std::cout`, the `Model`
singleton, the data members of the `Controller`, and the history of calls. -/
structure World where
  cin : Istream
  cout : List Output
  model : Model
  map_view : ViewPtr
  sailing_view : ViewPtr
  bridge_views : List (String × ViewPtr)
  views : List ViewPtr
  /-- The identity the next `make_shared` gives its object. -/
  next_view_id : Nat
  calls : List Call
  deriving DecidableEq

/-- A member function of the `Controller`: it returns a value or throws, and leaves a
state either way. -/
def Op (α : Type) : Type := World → Except Exn α × World

namespace Op

/-- The statement `return a`. -/
def ret {α : Type} (a : α) : Op α := fun w => (.ok a, w)

/-- The statement `throw e`. -/
def throw {α : Type} (e : Exn) : Op α := fun w => (.error e, w)

/-- Sequencing: an exception of the first part skips the second. -/
def seq {α β : Type} (m : Op α) (f : α → Op β) : Op β := fun w =>
  match m w with
  | (.ok a, w1) => f a w1
  | (.error e, w1) => (.error e, w1)

end Op

instance : Monad Op where
  pure := Op.ret
  bind := Op.seq

/-- Append to the history of calls. -/
def record (c : Call) : Op Unit := fun w =>
  (.ok (), { w with calls := w.calls ++ [c] })

/-! ## `Controller.cpp`: reading -/

/-- The statement `cin >> word` for a fresh `std::string`. -/
def read_word : Op String := fun w =>
  (.ok w.cin.extract_word.1, { w with cin := w.cin.extract_word.2 })

/-- The function `Controller::read_double`. -/
def read_double (E : Ext) : Op Double := fun w =>
  match w.cin.extract_double E with
  | (some number, cin1) => (.ok number, { w with cin := cin1 })
  | (none, cin1) => (.error (.Error "Expected a double!"), { w with cin := cin1 })

/-- The function `Controller::read_speed`. -/
def read_speed (E : Ext) : Op Double := do
  let speed ← read_double E
  if speed < 0 then Op.throw (.Error "Negative speed entered!")
  else pure speed

/-- The braced initialiser `Point{read_double(), read_double()}`: the two calls run
left to right. -/
def read_point (E : Ext) : Op Point := do
  let x ← read_double E
  let y ← read_double E
  pure { x := x, y := y }

/-- The function `Controller::read_and_get_island`. -/
def read_and_get_island (E : Ext) : Op String := do
  let island_name ← read_word
  fun w =>
    match w.model.get_island_ptr E island_name with
    | .ok p => (.ok p, w)
    | .error e => (.error e, w)

/-- The call `Model::get_instance().get_ship_ptr(name)` inside a handler. -/
def get_ship_ptr (E : Ext) (name : String) : Op String := fun w =>
  match w.model.get_ship_ptr E name with
  | .ok _ => (.ok name, w)
  | .error e => (.error e, w)

/-! ## `Controller.cpp`: calls into the `Model`, the ships and the views -/

/-- Modelled from the spec: the member functions of `Ship` are not in the source; the
ship of that name has accepted one more operation. -/
def Model.ship_accepts (m : Model) (ship : String) (op : ShipOp) : Model :=
  { m with ships := m.ships.map (fun e =>
      if e.1 = ship then (e.1, { e.2 with orders := e.2.orders ++ [op] }) else e) }

/-- A call `ship_ptr->op(...)`: the ship throws, or it accepts the operation. -/
def Ship_call (E : Ext) (ship_ptr : String) (op : ShipOp) : Op Unit := fun w =>
  match E.ship_op_throws w.model ship_ptr op with
  | some e => (.error e, { w with calls := w.calls ++ [.Ship_op ship_ptr op] })
  | none =>
    (.ok (), { w with
      model := w.model.ship_accepts ship_ptr op
      calls := w.calls ++ [.Ship_op ship_ptr op] })

/-- A call `map_view->op(...)`. -/
def Map_view_call (E : Ext) (op : ViewOp) : Op Unit := fun w =>
  match E.view_op_throws op with
  | some e => (.error e, { w with calls := w.calls ++ [.View_op w.map_view op] })
  | none => (.ok (), { w with calls := w.calls ++ [.View_op w.map_view op] })

/-- The call `Model::get_instance().update()`. -/
def Model_update (E : Ext) : Op Unit := fun w =>
  (.ok (), { w with model := w.model.update E, calls := w.calls ++ [.Model_update] })

/-- The call `Model::get_instance().add_ship(ship)`. -/
def Model_add_ship (s : Ship) : Op Unit := fun w =>
  (.ok (), { w with model := w.model.add_ship s, calls := w.calls ++ [.Model_add_ship s] })

/-- The call `Model::get_instance().attach(view)`. -/
def Model_attach (v : ViewPtr) : Op Unit := fun w =>
  (.ok (), { w with model := w.model.attach v, calls := w.calls ++ [.Model_attach v] })

/-- The call `Model::get_instance().detach(view)`. -/
def Model_detach (v : ViewPtr) : Op Unit := fun w =>
  (.ok (), { w with model := w.model.detach v, calls := w.calls ++ [.Model_detach v] })

/-- The call `Model::get_instance().describe()`. -/
def Model_describe : Op Unit := record .Model_describe

/-- The call `views.remove(p)` of `std::list`: every element equal to `p` goes. -/
def views_remove (p : ViewPtr) : Op Unit := fun w =>
  (.ok (), { w with views := w.views.filter (fun q => q != p) })

/-- The call `views.push_back(p)`. -/
def views_push_back (p : ViewPtr) : Op Unit := fun w =>
  (.ok (), { w with views := w.views ++ [p] })

/-- The expression `make_shared<V>(...)`: a new object. -/
def make_shared (kind : ViewKind) : Op ViewPtr := fun w =>
  (.ok (some { id := w.next_view_id, kind := kind }),
    { w with next_view_id := w.next_view_id + 1 })

/-! ## `Controller.cpp`: the command handlers -/

/-- A function that returns or throws without touching the state. -/
def Op.lift {α : Type} : Except Exn α → Op α
  | .ok a => Op.ret a
  | .error e => Op.throw e

/-- The function `Controller::quit_cmd`. -/
def quit_cmd : Op Unit := fun w =>
  (.ok (), { w with cout := w.cout ++ [.line "Done"], calls := w.calls ++ [.quit_cmd] })

/-- The function `Controller::check_map_is_open`. -/
def check_map_is_open : Op Unit := fun w =>
  if w.map_view = none then (.error (.Error "Map view is not open!"), w)
  else (.ok (), w)

/-- The function `Controller::default_cmd`. -/
def default_cmd (E : Ext) : Op Unit := do
  check_map_is_open
  Map_view_call E .set_defaults

/-- The statement `if(!(cin >> new_size)) throw Error("Expected an integer!")`. -/
def read_int (E : Ext) : Op Int := fun w =>
  match w.cin.extract_int E with
  | (some number, cin1) => (.ok number, { w with cin := cin1 })
  | (none, cin1) => (.error (.Error "Expected an integer!"), { w with cin := cin1 })

/-- The function `Controller::size_cmd`. -/
def size_cmd (E : Ext) : Op Unit := do
  check_map_is_open
  let new_size ← read_int E
  Map_view_call E (.set_size new_size)

/-- The function `Controller::zoom_cmd`. -/
def zoom_cmd (E : Ext) : Op Unit := do
  check_map_is_open
  let scale ← read_double E
  Map_view_call E (.set_scale scale)

/-- The function `Controller::pan_cmd`. -/
def pan_cmd (E : Ext) : Op Unit := do
  check_map_is_open
  let origin ← read_point E
  Map_view_call E (.set_origin origin)

/-- The function `Controller::show_cmd`: every element of `views` is drawn, in order. -/
def show_cmd : Op Unit := fun w =>
  (.ok (), { w with calls := w.calls ++ w.views.map Call.View_draw })

/-- The function `Controller::open_map_view_cmd`. -/
def open_map_view_cmd : Op Unit := do
  if (← fun w => (.ok (decide (w.map_view ≠ none)), w)) then
    Op.throw (.Error "Map view is already open!")
  else
    let p ← make_shared .Map_view
    fun w => (.ok (), { w with map_view := p })
    views_push_back p
    Model_attach p

/-- The function `Controller::close_map_view_cmd`. -/
def close_map_view_cmd : Op Unit := do
  check_map_is_open
  let map_view ← fun w => (.ok w.map_view, w)
  Model_detach map_view
  views_remove map_view
  fun w => (.ok (), { w with map_view := none })

/-- The function `Controller::open_sailing_view`. -/
def open_sailing_view : Op Unit := do
  if (← fun w => (.ok (decide (w.sailing_view ≠ none)), w)) then
    Op.throw (.Error "Sailing data view is already open!")
  else
    let p ← make_shared .Sailing_view
    fun w => (.ok (), { w with sailing_view := p })
    views_push_back p
    Model_attach p

/-- The function `Controller::close_sailing_view`.  The source removes `map_view`
from `views` here, not `sailing_view`. -/
def close_sailing_view : Op Unit := do
  if (← fun w => (.ok (decide (w.sailing_view = none)), w)) then
    Op.throw (.Error "Sailing data view is not open!")
  else
    let sailing_view ← fun w => (.ok w.sailing_view, w)
    Model_detach sailing_view
    let map_view ← fun w => (.ok w.map_view, w)
    views_remove map_view
    fun w => (.ok (), { w with sailing_view := none })

/-- The function `Controller::open_bridge_view`. -/
def open_bridge_view (E : Ext) : Op Unit := do
  let ship_name ← read_word
  let _ ← get_ship_ptr E ship_name
  if (← fun w => (.ok (w.bridge_views.lookup ship_name).isSome, w)) then
    Op.throw (.Error "Bridge view is already open for that ship!")
  else
    let bridge_view ← make_shared (.Bridge_view ship_name)
    fun w => (.ok (), { w with
      bridge_views := w.bridge_views ++ [(ship_name, bridge_view)] })
    views_push_back bridge_view
    Model_attach bridge_view

/-- The function `Controller::close_bridge_view`. -/
def close_bridge_view : Op Unit := do
  let ship_name ← read_word
  let iter ← fun w => (.ok (w.bridge_views.lookup ship_name), w)
  match iter with
  | none => Op.throw (.Error "Bridge view for that ship is not open!")
  | some second =>
    Model_detach second
    views_remove second
    fun w => (.ok (), { w with
      bridge_views := w.bridge_views.filter (fun e => e.1 != ship_name) })

/-- The function `Controller::status_cmd`. -/
def status_cmd : Op Unit := Model_describe

/-- The function `Controller::go_cmd`. -/
def go_cmd (E : Ext) : Op Unit := Model_update E

/-- The function `Controller::create_cmd`. -/
def create_cmd (E : Ext) : Op Unit := do
  let ship_name ← read_word
  if ship_name.length < 2 then
    Op.throw (.Error "Name is too short!")
  else if (← fun w => (.ok (w.model.is_name_in_use ship_name), w)) then
    Op.throw (.Error "Name is invalid!")
  else
    let ship_type ← read_word
    let init_position ← read_point E
    let ship ← Op.lift (create_ship ship_name ship_type init_position)
    Model_add_ship ship

/-- The function `Controller::course_cmd`. -/
def course_cmd (E : Ext) (ship_ptr : String) : Op Unit := do
  let course ← read_double E
  if course < 0 ∨ course ≥ 360 then
    Op.throw (.Error "Invalid heading entered!")
  else
    let speed ← read_speed E
    Ship_call E ship_ptr (.set_course_and_speed course speed)

/-- The function `Controller::position_cmd`. -/
def position_cmd (E : Ext) (ship_ptr : String) : Op Unit := do
  let destination ← read_point E
  let speed ← read_speed E
  Ship_call E ship_ptr (.set_destination_position_and_speed destination speed)

/-- The function `Controller::destination_cmd`. -/
def destination_cmd (E : Ext) (ship_ptr : String) : Op Unit := do
  let island_ptr ← read_and_get_island E
  let speed ← read_speed E
  Ship_call E ship_ptr (.set_destination_island_and_speed island_ptr speed)

/-- The function `Controller::load_at_cmd`. -/
def load_at_cmd (E : Ext) (ship_ptr : String) : Op Unit := do
  let island_ptr ← read_and_get_island E
  Ship_call E ship_ptr (.set_load_destination island_ptr)

/-- The function `Controller::unload_at_cmd`. -/
def unload_at_cmd (E : Ext) (ship_ptr : String) : Op Unit := do
  let island_ptr ← read_and_get_island E
  Ship_call E ship_ptr (.set_unload_destination island_ptr)

/-- The function `Controller::dock_at_cmd`. -/
def dock_at_cmd (E : Ext) (ship_ptr : String) : Op Unit := do
  let island_ptr ← read_and_get_island E
  Ship_call E ship_ptr (.dock island_ptr)

/-- The function `Controller::attack_cmd`. -/
def attack_cmd (E : Ext) (ship_ptr : String) : Op Unit := do
  let ship_name ← read_word
  let target_ship ← get_ship_ptr E ship_name
  Ship_call E ship_ptr (.attack target_ship)

/-- The function `Controller::refuel_cmd`. -/
def refuel_cmd (E : Ext) (ship_ptr : String) : Op Unit :=
  Ship_call E ship_ptr .refuel

/-- The function `Controller::stop_cmd`. -/
def stop_cmd (E : Ext) (ship_ptr : String) : Op Unit :=
  Ship_call E ship_ptr .stop

/-- The function `Controller::stop_attack_cmd`. -/
def stop_attack_cmd (E : Ext) (ship_ptr : String) : Op Unit :=
  Ship_call E ship_ptr .stop_attack

/-! ## `Controller.cpp`: `run` -/

/-- The table `ship_cmds` of `Controller::run`. -/
def ship_cmds : List (String × ShipCmd) :=
  [("course", .course_cmd),
   ("position", .position_cmd),
   ("destination", .destination_cmd),
   ("load_at", .load_at_cmd),
   ("unload_at", .unload_at_cmd),
   ("dock_at", .dock_at_cmd),
   ("attack", .attack_cmd),
   ("refuel", .refuel_cmd),
   ("stop", .stop_cmd),
   ("stop_attack", .stop_attack_cmd)]

/-- The table `view_model_cmds` of `Controller::run`. -/
def view_model_cmds : List (String × ViewModelCmd) :=
  [("default", .default_cmd),
   ("size", .size_cmd),
   ("zoom", .zoom_cmd),
   ("pan", .pan_cmd),
   ("show", .show_cmd),
   ("status", .status_cmd),
   ("go", .go_cmd),
   ("create", .create_cmd),
   ("open_map_view", .open_map_view_cmd),
   ("close_map_view", .close_map_view_cmd),
   ("open_sailing_view", .open_sailing_view),
   ("close_sailing_view", .close_sailing_view),
   ("open_bridge_view", .open_bridge_view),
   ("close_bridge_view", .close_bridge_view)]

/-- The function `Controller::get_func_ptr`; `cmds.find` is the lookup of a `std::map`. -/
def get_func_ptr {T : Type} (cmds : List (String × T)) (cmd_word : String) : Except Exn T :=
  match cmds.lookup cmd_word with
  | none => .error (.Error "Unrecognized command!")
  | some f => .ok f

/-- The member function a pointer of the table `ship_cmds` points to. -/
def ship_cmd_body (E : Ext) : ShipCmd → String → Op Unit
  | .course_cmd => course_cmd E
  | .position_cmd => position_cmd E
  | .destination_cmd => destination_cmd E
  | .load_at_cmd => load_at_cmd E
  | .unload_at_cmd => unload_at_cmd E
  | .dock_at_cmd => dock_at_cmd E
  | .attack_cmd => attack_cmd E
  | .refuel_cmd => refuel_cmd E
  | .stop_cmd => stop_cmd E
  | .stop_attack_cmd => stop_attack_cmd E

/-- The member function a pointer of the table `view_model_cmds` points to. -/
def view_model_cmd_body (E : Ext) : ViewModelCmd → Op Unit
  | .default_cmd => default_cmd E
  | .size_cmd => size_cmd E
  | .zoom_cmd => zoom_cmd E
  | .pan_cmd => pan_cmd E
  | .show_cmd => show_cmd
  | .status_cmd => status_cmd
  | .go_cmd => go_cmd E
  | .create_cmd => create_cmd E
  | .open_map_view_cmd => open_map_view_cmd
  | .close_map_view_cmd => close_map_view_cmd
  | .open_sailing_view => open_sailing_view
  | .close_sailing_view => close_sailing_view
  | .open_bridge_view => open_bridge_view E
  | .close_bridge_view => close_bridge_view

/-- The call `(this->*f)(ship_ptr)`: the handler runs once (and is entered in the
history). -/
def invoke_ship_cmd (E : Ext) (f : ShipCmd) (ship_ptr : String) : Op Unit := do
  record (.ship_cmd f ship_ptr)
  ship_cmd_body E f ship_ptr

/-- The call `(this->*f)()`: the handler runs once (and is entered in the history). -/
def invoke_view_model_cmd (E : Ext) (f : ViewModelCmd) : Op Unit := do
  record (.view_model_cmd f)
  view_model_cmd_body E f

/-- How the `try` block of `run` ends when it does not throw: the loop goes on, or
`run` returns. -/
inductive Flow where
  | next
  | done
  deriving DecidableEq

/-- The `try` block of the loop of `Controller::run`. -/
def run_try (E : Ext) : Op Flow := do
  let first_word ← read_word
  if first_word = "quit" then
    quit_cmd
    pure .done
  else if (← fun w => (.ok (w.model.is_ship_present first_word), w)) then
    let cmd_word ← read_word
    let ship_ptr ← get_ship_ptr E first_word
    let f ← Op.lift (get_func_ptr ship_cmds cmd_word)
    invoke_ship_cmd E f ship_ptr
    pure .next
  else
    let f ← Op.lift (get_func_ptr view_model_cmds first_word)
    invoke_view_model_cmd E f
    pure .next

/-- The loop `while (cin.get() != '\n');`, run for at most `fuel` calls of `get`:
`none` when the loop has not ended by then. -/
def discard_line : Nat → Istream → Option Istream
  | 0, _ => none
  | fuel + 1, s =>
    if s.get.1 = some '\n' then some s.get.2
    else discard_line fuel s.get.2

/-- The handler `catch (Error& error)` of `run`: the message is written, the stream
is cleared and the rest of the line is skipped. -/
def recover (fuel : Nat) (msg : String) (w : World) : Option World :=
  match discard_line fuel w.cin.clear with
  | none => none
  | some cin1 => some { w with cout := w.cout ++ [.line msg], cin := cin1 }

/-- The prompt that starts each round of the loop of `run`. -/
def write_prompt (w : World) : World :=
  { w with cout := w.cout ++ [.prompt w.model.time] }

/-- One round of the loop of `Controller::run`: `none` when the round has not ended
within `fuel` steps of its inner loop. -/
def run_round (E : Ext) (fuel : Nat) (w : World) : Option (Flow × World) :=
  match run_try E (write_prompt w) with
  | (.ok flow, w1) => some (flow, w1)
  | (.error (.Error msg), w1) =>
    match recover fuel msg w1 with
    | none => none
    | some w2 => some (.next, w2)
  | (.error (.other what), w1) =>
    some (.done, (quit_cmd { w1 with cout := w1.cout ++ [.line what] }).2)

/-- The function `Controller::run`, for at most `fuel` rounds of its loop (and `fuel`
steps of each inner loop): `none` when it has not returned by then. -/
def run (E : Ext) : Nat → World → Option World
  | 0, _ => none
  | fuel + 1, w =>
    match run_round E fuel w with
    | none => none
    | some (.done, w1) => some w1
    | some (.next, w1) => run E fuel w1

/-! ## A concrete instance, for runs on concrete input -/

/-- Decimal digits, accumulated from the left. -/
def read_digits : List Char → Nat → Nat × List Char
  | [], acc => (acc, [])
  | c :: cs, acc =>
    if c.isDigit then read_digits cs (acc * 10 + (c.toNat - 48)) else (acc, c :: cs)

/-- A conversion that reads an optional minus sign and decimal digits. -/
def sample_read_int : List Char → Option Int × List Char
  | [] => (none, [])
  | '-' :: c :: cs =>
    if c.isDigit then
      (some (-((read_digits (c :: cs) 0).1 : Int)), (read_digits (c :: cs) 0).2)
    else (none, c :: cs)
  | c :: cs =>
    if c.isDigit then
      (some ((read_digits (c :: cs) 0).1 : Int), (read_digits (c :: cs) 0).2)
    else (none, c :: cs)

/-- An instance of `Ext`: numbers are whole decimal numbers, no ship or view operation
throws, a tick leaves the ships alone, a serialized ship is its name, and the copy
assignment of `Ship` copies every member. -/
def sample_ext : Ext where
  read_double := fun cs => ((sample_read_int cs).1.map (fun n => (n : Rat)), (sample_read_int cs).2)
  read_int := sample_read_int
  ship_op_throws := fun _ _ _ => none
  view_op_throws := fun _ => none
  update_ships := fun ships => ships
  ship_from_stream := fun kind is =>
    (.ok (Ship.construct kind is.extract_word.1 { x := 0, y := 0 }), is.extract_word.2)
  ship_assign := fun _ source => source
  ship_not_found := .Error "Ship not found!"
  island_not_found := .Error "Island not found!"

/-- A stream that holds the given text. -/
def Istream.of_text (text : String) : Istream :=
  { buf := text.data, fail := false }

/-- A `Model` at time 0 without ships, islands and views. -/
def Model.empty : Model :=
  { time := 0, ships := [], islands := [], views := [] }

/-- A fresh `Controller` (no view open) on an empty `Model`, with the given text on
`std::cin`. -/
def World.start (text : String) : World :=
  { cin := Istream.of_text text, cout := [], model := Model.empty
    map_view := none, sailing_view := none, bridge_views := [], views := []
    next_view_id := 0, calls := [] }

/-! ## Notions used in the statements -/

/-- The entries of the history that the loop of `run` makes: a handler was called. -/
def Call.is_handler : Call → Bool
  | .quit_cmd => true
  | .ship_cmd _ _ => true
  | .view_model_cmd _ => true
  | _ => false

/-- The handlers that were called, in order. -/
def World.handlers (w : World) : List Call :=
  w.calls.filter Call.is_handler

/-- The number of calls of `Model::update`. -/
def World.updates (w : World) : Nat :=
  w.calls.count .Model_update

/-- An operation that calls no handler and not `Model::update`, and leaves the time of
the `Model` alone. -/
def Op.Plain {α : Type} (m : Op α) : Prop :=
  ∀ w, (m w).2.model.time = w.model.time ∧
    (m w).2.handlers = w.handlers ∧ (m w).2.updates = w.updates

/-! ## Theorems: `Ship_factory.cpp` -/

theorem create_ship_known (name : String) (initial_position : Point) (k : ShipKind) :
    create_ship name k.type_name initial_position =
      .ok (Ship.construct k name initial_position) := by
  cases k <;> rfl

theorem create_ship_unknown (name type : String) (initial_position : Point)
    (h : ∀ k : ShipKind, type ≠ k.type_name) :
    create_ship name type initial_position =
      .error (.Error "Trying to create ship of unknown type!") := by
  have h1 := h .Cruiser
  have h2 := h .Tanker
  have h3 := h .Cruise_ship
  have h4 := h .Torpedo_boat
  simp only [ShipKind.type_name] at h1 h2 h3 h4
  simp [create_ship, h1, h2, h3, h4]

/-- C2: `create_ship` returns a ship of the kind whose type word is `type` (exact
match), built from the name and the position given; for every other type word it
returns no ship and throws `Error "Trying to create ship of unknown type!"`. -/
theorem create_ship_spec (name type : String) (initial_position : Point) :
    (∀ k : ShipKind, type = k.type_name →
      create_ship name type initial_position =
        .ok { kind := k, name := name, position := initial_position, orders := [] }) ∧
    ((∀ k : ShipKind, type ≠ k.type_name) →
      create_ship name type initial_position =
        .error (.Error "Trying to create ship of unknown type!")) ∧
    create_ship name "cruiser" initial_position =
      .error (.Error "Trying to create ship of unknown type!") := by
  refine ⟨?_, create_ship_unknown name type initial_position, rfl⟩
  intro k hk
  rw [hk]
  exact create_ship_known name initial_position k

/-- C10: when the leading type word is none of the four known ones, `restore_ship`
does not throw an `Error` as `create_ship` does for the same word: it reaches
`new_ship->get_name()` with an empty pointer.  So it does on an exhausted stream. -/
theorem restore_ship_unknown_type (E : Ext) (is : Istream) (m : Model)
    (hword : ∀ k : ShipKind, is.extract_word.1 ≠ k.type_name) :
    restore_ship E is m = (.null_dereference, is.extract_word.2, m) ∧
    (∀ (name : String) (p : Point), create_ship name is.extract_word.1 p =
      .error (.Error "Trying to create ship of unknown type!")) ∧
    (restore_ship E { buf := [], fail := false } m).1 = .null_dereference := by
  have h1 := hword .Cruiser
  have h2 := hword .Tanker
  have h3 := hword .Cruise_ship
  have h4 := hword .Torpedo_boat
  simp only [ShipKind.type_name] at h1 h2 h3 h4
  refine ⟨?_, ?_, rfl⟩
  · simp [restore_ship, h1, h2, h3, h4, restore_finish]
  · intro name p
    simp [create_ship, h1, h2, h3, h4]

/-- C10, at the record `Submarine Nemo 0 0`. -/
theorem restore_ship_unknown_type_witness :
    (∀ k : ShipKind, (Istream.of_text "Submarine Nemo 0 0").extract_word.1 ≠ k.type_name) ∧
    restore_ship sample_ext (Istream.of_text "Submarine Nemo 0 0") Model.empty =
      (.null_dereference, { buf := " Nemo 0 0".data, fail := false }, Model.empty) :=
  ⟨fun k => by cases k <;> decide,
   (restore_ship_unknown_type sample_ext (Istream.of_text "Submarine Nemo 0 0") Model.empty
      (fun k => by cases k <;> decide)).1⟩

theorem Op.bind_eq {α β : Type} (m : Op α) (f : α → Op β) : (m >>= f) = Op.seq m f := rfl

theorem Op.pure_eq {α : Type} (a : α) : (pure a : Op α) = Op.ret a := rfl

theorem read_double_ok (E : Ext) (w : World) (v : Double) (cin1 : Istream)
    (h : w.cin.extract_double E = (some v, cin1)) :
    read_double E w = (.ok v, { w with cin := cin1 }) := by
  simp [read_double, h]

theorem read_double_fails (E : Ext) (w : World) (cin1 : Istream)
    (h : w.cin.extract_double E = (none, cin1)) :
    read_double E w = (.error (.Error "Expected a double!"), { w with cin := cin1 }) := by
  simp [read_double, h]

/-- C4: with the heading `h` read, `course_cmd` throws `Error "Invalid heading
entered!"` when `h` is outside `[0, 360)`, with the speed not read and nothing else
changed; with `h` inside and the speed `s` read, it throws `Error "Negative speed
entered!"` when `s < 0`, with nothing else changed, and otherwise it is the one call
`set_course_and_speed(h, s)` on the ship; so that call is made if and only if
`0 ≤ h < 360` and `0 ≤ s`. -/
theorem course_cmd_spec (E : Ext) (ship_ptr : String) (w : World) (h : Double)
    (cin1 : Istream) (hread : w.cin.extract_double E = (some h, cin1)) :
    (¬ (0 ≤ h ∧ h < 360) →
      course_cmd E ship_ptr w =
        (.error (.Error "Invalid heading entered!"), { w with cin := cin1 })) ∧
    (∀ (s : Double) (cin2 : Istream), cin1.extract_double E = (some s, cin2) →
      (0 ≤ h ∧ h < 360 → s < 0 →
        course_cmd E ship_ptr w =
          (.error (.Error "Negative speed entered!"), { w with cin := cin2 })) ∧
      (0 ≤ h ∧ h < 360 → 0 ≤ s →
        course_cmd E ship_ptr w =
          Ship_call E ship_ptr (.set_course_and_speed h s) { w with cin := cin2 }) ∧
      ((course_cmd E ship_ptr w).2.calls =
          w.calls ++ [.Ship_op ship_ptr (.set_course_and_speed h s)] ↔
        0 ≤ h ∧ h < 360 ∧ 0 ≤ s)) := by
  have h1 := read_double_ok E w h cin1 hread
  have hinvalid : ¬ (0 ≤ h ∧ h < 360) →
      course_cmd E ship_ptr w =
        (.error (.Error "Invalid heading entered!"), { w with cin := cin1 }) := by
    intro hbad
    have hbad2 : h < 0 ∨ h ≥ 360 := by
      by_contra hc
      push_neg at hc
      exact hbad ⟨hc.1, hc.2⟩
    simp [course_cmd, Op.bind_eq, Op.seq, h1, hbad2, Op.throw]
  refine ⟨hinvalid, ?_⟩
  intro s cin2 hread2
  have h2 := read_double_ok E { w with cin := cin1 } s cin2 hread2
  have hnegative : 0 ≤ h ∧ h < 360 → s < 0 →
      course_cmd E ship_ptr w =
        (.error (.Error "Negative speed entered!"), { w with cin := cin2 }) := by
    intro hgood hs
    have hgood2 : ¬ (h < 0 ∨ h ≥ 360) := by
      push_neg
      exact hgood
    simp [course_cmd, Op.bind_eq, Op.seq, h1, hgood2, read_speed, h2, hs, Op.throw]
  have hvalid : 0 ≤ h ∧ h < 360 → 0 ≤ s →
      course_cmd E ship_ptr w =
        Ship_call E ship_ptr (.set_course_and_speed h s) { w with cin := cin2 } := by
    intro hgood hs
    have hgood2 : ¬ (h < 0 ∨ h ≥ 360) := by
      push_neg
      exact hgood
    have hs2 : ¬ s < 0 := not_lt.mpr hs
    simp [course_cmd, Op.bind_eq, Op.seq, h1, hgood2, Op.pure_eq, Op.ret, read_speed, h2, hs2]
  refine ⟨hnegative, hvalid, ?_⟩
  by_cases hgood : 0 ≤ h ∧ h < 360
  · by_cases hs : 0 ≤ s
    · rw [hvalid hgood hs]
      have hcalls : (Ship_call E ship_ptr (.set_course_and_speed h s)
          { w with cin := cin2 }).2.calls =
          w.calls ++ [.Ship_op ship_ptr (.set_course_and_speed h s)] := by
        unfold Ship_call
        split <;> rfl
      rw [hcalls]
      exact ⟨fun _ => ⟨hgood.1, hgood.2, hs⟩, fun _ => rfl⟩
    · rw [hnegative hgood (not_le.mp hs)]
      constructor
      · intro hc
        exact absurd hc (by simp)
      · intro hc
        exact absurd hc.2.2 hs
  · rw [hinvalid hgood]
    constructor
    · intro hc
      exact absurd hc (by simp)
    · intro hc
      exact absurd ⟨hc.1, hc.2.1⟩ hgood

/-- C4, at the input `90 5`: the hypothesis holds with heading 90, and the handler is
the call `set_course_and_speed(90, 5)` on the ship. -/
theorem course_cmd_spec_witness :
    (World.start "90 5").cin.extract_double sample_ext =
      (some 90, { buf := " 5".data, fail := false }) ∧
    course_cmd sample_ext "Ajax" (World.start "90 5") =
      Ship_call sample_ext "Ajax" (.set_course_and_speed 90 5)
        { World.start "90 5" with cin := { buf := [], fail := false } } :=
  ⟨by rfl,
    ((course_cmd_spec sample_ext "Ajax" (World.start "90 5") 90
      { buf := " 5".data, fail := false } (by rfl)).2 5 { buf := [], fail := false }
        (by rfl)).2.1 (by norm_num) (by norm_num)⟩

theorem read_word_eq (w : World) (word : String) (cin1 : Istream)
    (h : w.cin.extract_word = (word, cin1)) :
    read_word w = (.ok word, { w with cin := cin1 }) := by
  simp [read_word, h]

/-- The paths of `create_cmd`, by what it reads. -/
theorem create_cmd_paths (E : Ext) (w : World) (ship_name ship_type : String)
    (cin1 cin2 cin3 cin4 : Istream) (x y : Option Double)
    (h1 : w.cin.extract_word = (ship_name, cin1))
    (h2 : cin1.extract_word = (ship_type, cin2))
    (h3 : cin2.extract_double E = (x, cin3))
    (h4 : cin3.extract_double E = (y, cin4)) :
    (ship_name.length < 2 →
      create_cmd E w = (.error (.Error "Name is too short!"), { w with cin := cin1 })) ∧
    (2 ≤ ship_name.length → w.model.is_name_in_use ship_name = true →
      create_cmd E w = (.error (.Error "Name is invalid!"), { w with cin := cin1 })) ∧
    (2 ≤ ship_name.length → w.model.is_name_in_use ship_name = false → x = none →
      create_cmd E w = (.error (.Error "Expected a double!"), { w with cin := cin3 })) ∧
    (2 ≤ ship_name.length → w.model.is_name_in_use ship_name = false → x ≠ none → y = none →
      create_cmd E w = (.error (.Error "Expected a double!"), { w with cin := cin4 })) ∧
    (2 ≤ ship_name.length → w.model.is_name_in_use ship_name = false →
      ∀ vx vy, x = some vx → y = some vy →
      create_cmd E w =
        match create_ship ship_name ship_type { x := vx, y := vy } with
        | .ok ship =>
          (.ok (), { w with
            cin := cin4
            model := w.model.add_ship ship
            calls := w.calls ++ [.Model_add_ship ship] })
        | .error e => (.error e, { w with cin := cin4 })) := by
  have r1 := read_word_eq w ship_name cin1 h1
  refine ⟨?_, ?_, ?_, ?_, ?_⟩
  · intro hlen
    simp [create_cmd, Op.bind_eq, Op.seq, r1, hlen, Op.throw]
  · intro hlen huse
    have hlen2 : ¬ ship_name.length < 2 := by omega
    simp [create_cmd, Op.bind_eq, Op.seq, r1, hlen2, Op.pure_eq, Op.ret, huse, Op.throw]
  · intro hlen huse hx
    subst hx
    have hlen2 : ¬ ship_name.length < 2 := by omega
    have r2 := read_word_eq { w with cin := cin1 } ship_type cin2 h2
    have r3 := read_double_fails E { w with cin := cin2 } cin3 h3
    simp [create_cmd, Op.bind_eq, Op.seq, r1, hlen2, Op.pure_eq, Op.ret, huse, r2, read_point, r3]
  · intro hlen huse hx hy
    subst hy
    obtain ⟨vx, rfl⟩ := Option.ne_none_iff_exists'.mp hx
    have hlen2 : ¬ ship_name.length < 2 := by omega
    have r2 := read_word_eq { w with cin := cin1 } ship_type cin2 h2
    have r3 := read_double_ok E { w with cin := cin2 } vx cin3 h3
    have r4 := read_double_fails E { w with cin := cin3 } cin4 h4
    simp [create_cmd, Op.bind_eq, Op.seq, r1, hlen2, Op.pure_eq, Op.ret, huse, r2, read_point, r3, r4]
  · intro hlen huse vx vy hx hy
    subst hx hy
    have hlen2 : ¬ ship_name.length < 2 := by omega
    have r2 := read_word_eq { w with cin := cin1 } ship_type cin2 h2
    have r3 := read_double_ok E { w with cin := cin2 } vx cin3 h3
    have r4 := read_double_ok E { w with cin := cin3 } vy cin4 h4
    simp only [create_cmd, Op.bind_eq, Op.seq, r1, hlen2, Op.pure_eq, Op.ret, huse, r2, read_point, r3, r4, if_false, Bool.false_eq_true]
    cases hc : create_ship ship_name ship_type { x := vx, y := vy } with
    | ok ship => simp [Op.lift, Op.ret, Model_add_ship]
    | error e => simp [Op.lift, Op.throw]

/-! ## Theorems: what the handlers do not call -/

theorem plain_of_calls {α : Type} (m : Op α)
    (h : ∀ w, (m w).2.model.time = w.model.time ∧ ∃ extra, (m w).2.calls = w.calls ++ extra ∧
      ∀ c ∈ extra, c.is_handler = false ∧ c ≠ .Model_update) :
    Op.Plain m := by
  intro w
  obtain ⟨ht, extra, hc, hex⟩ := h w
  refine ⟨ht, ?_, ?_⟩
  · unfold World.handlers
    rw [hc, List.filter_append]
    have : extra.filter Call.is_handler = [] := by
      rw [List.filter_eq_nil_iff]
      intro c hcm
      simp [(hex c hcm).1]
    rw [this, List.append_nil]
  · unfold World.updates
    rw [hc, List.count_append]
    have : extra.count Call.Model_update = 0 := by
      rw [List.count_eq_zero]
      intro hm
      exact (hex _ hm).2 rfl
    omega

theorem plain_same {α : Type} (m : Op α)
    (h : ∀ w, (m w).2.model.time = w.model.time ∧ (m w).2.calls = w.calls) : Op.Plain m := by
  intro w
  obtain ⟨ht, hc⟩ := h w
  exact ⟨ht, by unfold World.handlers; rw [hc], by unfold World.updates; rw [hc]⟩

theorem plain_one {α : Type} (m : Op α) (c : Call) (hh : c.is_handler = false)
    (hu : c ≠ .Model_update)
    (h : ∀ w, (m w).2.model.time = w.model.time ∧ (m w).2.calls = w.calls ++ [c]) :
    Op.Plain m := by
  apply plain_of_calls
  intro w
  refine ⟨(h w).1, [c], (h w).2, ?_⟩
  intro d hd
  rw [List.mem_singleton] at hd
  subst hd
  exact ⟨hh, hu⟩

theorem plain_ret {α : Type} (a : α) : Op.Plain (Op.ret a) :=
  plain_same _ (fun _ => ⟨rfl, rfl⟩)

theorem plain_pure {α : Type} (a : α) : Op.Plain (pure a : Op α) := plain_ret a

theorem plain_throw {α : Type} (e : Exn) : Op.Plain (Op.throw e : Op α) :=
  plain_same _ (fun _ => ⟨rfl, rfl⟩)

theorem plain_seq {α β : Type} (m : Op α) (f : α → Op β) (hm : Op.Plain m)
    (hf : ∀ a, Op.Plain (f a)) : Op.Plain (Op.seq m f) := by
  intro w
  unfold Op.seq
  obtain ⟨h1, h2, h3⟩ := hm w
  rcases hmw : m w with ⟨r, w1⟩
  rw [hmw] at h1 h2 h3
  cases r with
  | error e => exact ⟨h1, h2, h3⟩
  | ok a =>
    obtain ⟨g1, g2, g3⟩ := hf a w1
    exact ⟨g1.trans h1, g2.trans h2, g3.trans h3⟩

theorem plain_bind {α β : Type} (m : Op α) (f : α → Op β) (hm : Op.Plain m)
    (hf : ∀ a, Op.Plain (f a)) : Op.Plain (m >>= f) := plain_seq m f hm hf

theorem plain_ite {α : Type} (c : Prop) [Decidable c] (a b : Op α) (ha : Op.Plain a)
    (hb : Op.Plain b) : Op.Plain (if c then a else b) := by
  split
  · exact ha
  · exact hb

theorem plain_lift {α : Type} (r : Except Exn α) : Op.Plain (Op.lift r) := by
  cases r with
  | ok a => exact plain_ret a
  | error e => exact plain_throw e

theorem plain_read_word : Op.Plain read_word := plain_same _ (fun _ => ⟨rfl, rfl⟩)

theorem plain_read_double (E : Ext) : Op.Plain (read_double E) := by
  apply plain_same
  intro w
  unfold read_double
  split <;> exact ⟨rfl, rfl⟩

theorem plain_read_int (E : Ext) : Op.Plain (read_int E) := by
  apply plain_same
  intro w
  unfold read_int
  split <;> exact ⟨rfl, rfl⟩

theorem plain_get_ship_ptr (E : Ext) (name : String) : Op.Plain (get_ship_ptr E name) := by
  apply plain_same
  intro w
  unfold get_ship_ptr
  split <;> exact ⟨rfl, rfl⟩

theorem plain_check_map_is_open : Op.Plain check_map_is_open := by
  apply plain_same
  intro w
  unfold check_map_is_open
  split <;> exact ⟨rfl, rfl⟩

theorem plain_Map_view_call (E : Ext) (op : ViewOp) : Op.Plain (Map_view_call E op) := by
  apply plain_of_calls
  intro w
  unfold Map_view_call
  split
  · exact ⟨rfl, _, rfl, by simp [Call.is_handler]⟩
  · exact ⟨rfl, _, rfl, by simp [Call.is_handler]⟩

theorem plain_Ship_call (E : Ext) (ship_ptr : String) (op : ShipOp) :
    Op.Plain (Ship_call E ship_ptr op) := by
  apply plain_of_calls
  intro w
  unfold Ship_call
  split
  · exact ⟨rfl, _, rfl, by simp [Call.is_handler]⟩
  · exact ⟨rfl, _, rfl, by simp [Call.is_handler]⟩

theorem plain_Model_add_ship (s : Ship) : Op.Plain (Model_add_ship s) := by
  apply plain_one _ (.Model_add_ship s) rfl (by simp)
  intro w
  refine ⟨?_, rfl⟩
  simp only [Model_add_ship, Model.add_ship]
  split <;> rfl

theorem plain_Model_attach (v : ViewPtr) : Op.Plain (Model_attach v) :=
  plain_one _ (.Model_attach v) rfl (by simp) (fun _ => ⟨rfl, rfl⟩)

theorem plain_Model_detach (v : ViewPtr) : Op.Plain (Model_detach v) :=
  plain_one _ (.Model_detach v) rfl (by simp) (fun _ => ⟨rfl, rfl⟩)

theorem plain_Model_describe : Op.Plain Model_describe :=
  plain_one _ .Model_describe rfl (by simp) (fun _ => ⟨rfl, rfl⟩)

theorem plain_views_remove (p : ViewPtr) : Op.Plain (views_remove p) :=
  plain_same _ (fun _ => ⟨rfl, rfl⟩)

theorem plain_views_push_back (p : ViewPtr) : Op.Plain (views_push_back p) :=
  plain_same _ (fun _ => ⟨rfl, rfl⟩)

theorem plain_make_shared (k : ViewKind) : Op.Plain (make_shared k) :=
  plain_same _ (fun _ => ⟨rfl, rfl⟩)

theorem plain_show_cmd : Op.Plain show_cmd := by
  apply plain_of_calls
  intro w
  refine ⟨rfl, _, rfl, ?_⟩
  intro c hc
  rw [List.mem_map] at hc
  obtain ⟨v, _, rfl⟩ := hc
  exact ⟨rfl, by simp⟩

theorem plain_read_speed (E : Ext) : Op.Plain (read_speed E) := by
  unfold read_speed
  apply plain_bind _ _ (plain_read_double E)
  intro speed
  exact plain_ite _ _ _ (plain_throw _) (plain_pure _)

theorem plain_read_point (E : Ext) : Op.Plain (read_point E) := by
  unfold read_point
  apply plain_bind _ _ (plain_read_double E)
  intro x
  apply plain_bind _ _ (plain_read_double E)
  intro y
  exact plain_pure _

theorem plain_read_and_get_island (E : Ext) : Op.Plain (read_and_get_island E) := by
  unfold read_and_get_island
  apply plain_bind _ _ plain_read_word
  intro n
  apply plain_same
  intro w
  split <;> exact ⟨rfl, rfl⟩

theorem plain_getter {α : Type} (g : World → α) :
    Op.Plain (fun w => ((.ok (g w) : Except Exn α), w)) :=
  plain_same _ (fun _ => ⟨rfl, rfl⟩)

theorem plain_default_cmd (E : Ext) : Op.Plain (default_cmd E) :=
  plain_bind _ _ plain_check_map_is_open (fun _ => plain_Map_view_call E _)

theorem plain_size_cmd (E : Ext) : Op.Plain (size_cmd E) :=
  plain_bind _ _ plain_check_map_is_open (fun _ =>
    plain_bind _ _ (plain_read_int E) (fun _ => plain_Map_view_call E _))

theorem plain_zoom_cmd (E : Ext) : Op.Plain (zoom_cmd E) :=
  plain_bind _ _ plain_check_map_is_open (fun _ =>
    plain_bind _ _ (plain_read_double E) (fun _ => plain_Map_view_call E _))

theorem plain_pan_cmd (E : Ext) : Op.Plain (pan_cmd E) :=
  plain_bind _ _ plain_check_map_is_open (fun _ =>
    plain_bind _ _ (plain_read_point E) (fun _ => plain_Map_view_call E _))

theorem plain_open_map_view_cmd : Op.Plain open_map_view_cmd :=
  plain_bind _ _ (plain_getter _) (fun _ =>
    plain_ite _ _ _ (plain_throw _)
      (plain_bind _ _ (plain_make_shared _) (fun _ =>
        plain_bind _ _ (plain_same _ (fun _ => ⟨rfl, rfl⟩)) (fun _ =>
          plain_bind _ _ (plain_views_push_back _) (fun _ => plain_Model_attach _)))))

theorem plain_close_map_view_cmd : Op.Plain close_map_view_cmd :=
  plain_bind _ _ plain_check_map_is_open (fun _ =>
    plain_bind _ _ (plain_getter _) (fun _ =>
      plain_bind _ _ (plain_Model_detach _) (fun _ =>
        plain_bind _ _ (plain_views_remove _) (fun _ =>
          plain_same _ (fun _ => ⟨rfl, rfl⟩)))))

theorem plain_open_sailing_view : Op.Plain open_sailing_view :=
  plain_bind _ _ (plain_getter _) (fun _ =>
    plain_ite _ _ _ (plain_throw _)
      (plain_bind _ _ (plain_make_shared _) (fun _ =>
        plain_bind _ _ (plain_same _ (fun _ => ⟨rfl, rfl⟩)) (fun _ =>
          plain_bind _ _ (plain_views_push_back _) (fun _ => plain_Model_attach _)))))

theorem plain_close_sailing_view : Op.Plain close_sailing_view :=
  plain_bind _ _ (plain_getter _) (fun _ =>
    plain_ite _ _ _ (plain_throw _)
      (plain_bind _ _ (plain_getter _) (fun _ =>
        plain_bind _ _ (plain_Model_detach _) (fun _ =>
          plain_bind _ _ (plain_getter _) (fun _ =>
            plain_bind _ _ (plain_views_remove _) (fun _ =>
              plain_same _ (fun _ => ⟨rfl, rfl⟩)))))))

theorem plain_open_bridge_view (E : Ext) : Op.Plain (open_bridge_view E) :=
  plain_bind _ _ plain_read_word (fun _ =>
    plain_bind _ _ (plain_get_ship_ptr E _) (fun _ =>
      plain_bind _ _ (plain_getter _) (fun _ =>
        plain_ite _ _ _ (plain_throw _)
          (plain_bind _ _ (plain_make_shared _) (fun _ =>
            plain_bind _ _ (plain_same _ (fun _ => ⟨rfl, rfl⟩)) (fun _ =>
              plain_bind _ _ (plain_views_push_back _) (fun _ => plain_Model_attach _)))))))

theorem plain_close_bridge_view : Op.Plain close_bridge_view :=
  plain_bind _ _ plain_read_word (fun _ =>
    plain_bind _ _ (plain_getter _) (fun iter => by
      cases iter with
      | none => exact plain_throw _
      | some v =>
        exact plain_bind _ _ (plain_Model_detach _) (fun _ =>
          plain_bind _ _ (plain_views_remove _) (fun _ =>
            plain_same _ (fun _ => ⟨rfl, rfl⟩)))))

theorem plain_create_cmd (E : Ext) : Op.Plain (create_cmd E) :=
  plain_bind _ _ plain_read_word (fun _ =>
    plain_ite _ _ _ (plain_throw _)
      (plain_bind _ _ (plain_getter _) (fun _ =>
        plain_ite _ _ _ (plain_throw _)
          (plain_bind _ _ plain_read_word (fun _ =>
            plain_bind _ _ (plain_read_point E) (fun _ =>
              plain_bind _ _ (plain_lift _) (fun _ => plain_Model_add_ship _)))))))

theorem plain_course_cmd (E : Ext) (ship_ptr : String) : Op.Plain (course_cmd E ship_ptr) :=
  plain_bind _ _ (plain_read_double E) (fun _ =>
    plain_ite _ _ _ (plain_throw _)
      (plain_bind _ _ (plain_read_speed E) (fun _ => plain_Ship_call E _ _)))

theorem plain_position_cmd (E : Ext) (ship_ptr : String) :
    Op.Plain (position_cmd E ship_ptr) :=
  plain_bind _ _ (plain_read_point E) (fun _ =>
    plain_bind _ _ (plain_read_speed E) (fun _ => plain_Ship_call E _ _))

theorem plain_destination_cmd (E : Ext) (ship_ptr : String) :
    Op.Plain (destination_cmd E ship_ptr) :=
  plain_bind _ _ (plain_read_and_get_island E) (fun _ =>
    plain_bind _ _ (plain_read_speed E) (fun _ => plain_Ship_call E _ _))

theorem plain_load_at_cmd (E : Ext) (ship_ptr : String) : Op.Plain (load_at_cmd E ship_ptr) :=
  plain_bind _ _ (plain_read_and_get_island E) (fun _ => plain_Ship_call E _ _)

theorem plain_unload_at_cmd (E : Ext) (ship_ptr : String) :
    Op.Plain (unload_at_cmd E ship_ptr) :=
  plain_bind _ _ (plain_read_and_get_island E) (fun _ => plain_Ship_call E _ _)

theorem plain_dock_at_cmd (E : Ext) (ship_ptr : String) : Op.Plain (dock_at_cmd E ship_ptr) :=
  plain_bind _ _ (plain_read_and_get_island E) (fun _ => plain_Ship_call E _ _)

theorem plain_attack_cmd (E : Ext) (ship_ptr : String) : Op.Plain (attack_cmd E ship_ptr) :=
  plain_bind _ _ plain_read_word (fun _ =>
    plain_bind _ _ (plain_get_ship_ptr E _) (fun _ => plain_Ship_call E _ _))

theorem plain_ship_cmd_body (E : Ext) (f : ShipCmd) (ship_ptr : String) :
    Op.Plain (ship_cmd_body E f ship_ptr) := by
  cases f
  case course_cmd => exact plain_course_cmd E ship_ptr
  case position_cmd => exact plain_position_cmd E ship_ptr
  case destination_cmd => exact plain_destination_cmd E ship_ptr
  case load_at_cmd => exact plain_load_at_cmd E ship_ptr
  case unload_at_cmd => exact plain_unload_at_cmd E ship_ptr
  case dock_at_cmd => exact plain_dock_at_cmd E ship_ptr
  case attack_cmd => exact plain_attack_cmd E ship_ptr
  case refuel_cmd => exact plain_Ship_call E ship_ptr _
  case stop_cmd => exact plain_Ship_call E ship_ptr _
  case stop_attack_cmd => exact plain_Ship_call E ship_ptr _

theorem plain_view_model_cmd_body (E : Ext) (f : ViewModelCmd) (hf : f ≠ .go_cmd) :
    Op.Plain (view_model_cmd_body E f) := by
  cases f
  case go_cmd => exact absurd rfl hf
  case default_cmd => exact plain_default_cmd E
  case size_cmd => exact plain_size_cmd E
  case zoom_cmd => exact plain_zoom_cmd E
  case pan_cmd => exact plain_pan_cmd E
  case show_cmd => exact plain_show_cmd
  case status_cmd => exact plain_Model_describe
  case create_cmd => exact plain_create_cmd E
  case open_map_view_cmd => exact plain_open_map_view_cmd
  case close_map_view_cmd => exact plain_close_map_view_cmd
  case open_sailing_view => exact plain_open_sailing_view
  case close_sailing_view => exact plain_close_sailing_view
  case open_bridge_view => exact plain_open_bridge_view E
  case close_bridge_view => exact plain_close_bridge_view

/-! ## Theorems: the dispatch of `run` -/

theorem lookup_eq_none_iff_not_key {T : Type} (cmds : List (String × T)) (word : String) :
    cmds.lookup word = none ↔ ∀ f, (word, f) ∉ cmds := by
  induction cmds with
  | nil => simp
  | cons e es ih =>
    obtain ⟨k, v⟩ := e
    by_cases hk : word = k
    · subst hk
      simp only [List.lookup, beq_self_eq_true]
      constructor
      · intro h; exact absurd h (by simp)
      · intro h; exact absurd (List.mem_cons_self _ _) (h v)
    · have hk2 : (word == k) = false := by simpa using hk
      simp only [List.lookup, hk2, ih]
      constructor
      · intro h f hf
        rcases List.mem_cons.mp hf with h1 | h1
        · exact hk (Prod.mk.inj h1).1
        · exact h f h1
      · intro h f hf
        exact h f (List.mem_cons_of_mem _ hf)

theorem lookup_eq_some_iff_mem {T : Type} (cmds : List (String × T)) (word : String) (f : T)
    (hkeys : (cmds.map Prod.fst).Nodup) :
    cmds.lookup word = some f ↔ (word, f) ∈ cmds := by
  induction cmds with
  | nil => simp
  | cons e es ih =>
    obtain ⟨k, v⟩ := e
    rw [List.map_cons, List.nodup_cons] at hkeys
    by_cases hk : word = k
    · subst hk
      simp only [List.lookup, beq_self_eq_true]
      constructor
      · intro h
        rw [Option.some.inj h]
        exact List.mem_cons_self _ _
      · intro h
        rcases List.mem_cons.mp h with h1 | h1
        · rw [(Prod.mk.inj h1).2]
        · exact absurd (List.mem_map_of_mem Prod.fst h1) hkeys.1
    · have hk2 : (word == k) = false := by simpa using hk
      simp only [List.lookup, hk2, ih hkeys.2]
      constructor
      · intro h; exact List.mem_cons_of_mem _ h
      · intro h
        rcases List.mem_cons.mp h with h1 | h1
        · exact absurd (Prod.mk.inj h1).1 hk
        · exact h1

theorem get_func_ptr_spec {T : Type} (cmds : List (String × T)) (word : String)
    (hkeys : (cmds.map Prod.fst).Nodup) :
    (∀ f, get_func_ptr cmds word = .ok f ↔ (word, f) ∈ cmds) ∧
    (get_func_ptr cmds word = .error (.Error "Unrecognized command!") ↔
      ∀ f, (word, f) ∉ cmds) ∧
    (∀ e, get_func_ptr cmds word = .error e → e = .Error "Unrecognized command!") := by
  unfold get_func_ptr
  refine ⟨?_, ?_, ?_⟩
  · intro f
    rw [← lookup_eq_some_iff_mem cmds word f hkeys]
    cases cmds.lookup word <;> simp
  · rw [← lookup_eq_none_iff_not_key]
    cases cmds.lookup word <;> simp
  · intro e
    cases cmds.lookup word <;> simp
    intro h; exact h.symm

theorem ship_cmds_keys : (ship_cmds.map Prod.fst).Nodup := by decide

theorem view_model_cmds_keys : (view_model_cmds.map Prod.fst).Nodup := by decide

theorem handlers_append_one (w : World) (c : Call) (h : c.is_handler = true) :
    ({ w with calls := w.calls ++ [c] } : World).handlers = w.handlers ++ [c] := by
  simp [World.handlers, List.filter_append, h]

theorem updates_append_handler (w : World) (c : Call) (h : c ≠ .Model_update) :
    ({ w with calls := w.calls ++ [c] } : World).updates = w.updates := by
  simp only [World.updates, List.count_append]
  have : [c].count Call.Model_update = 0 := by
    rw [List.count_eq_zero]
    simpa using h.symm
  omega


theorem seq_ret_snd {α β : Type} (m : Op α) (b : β) (w : World) :
    (Op.seq m (fun _ => Op.ret b) w).2 = (m w).2 := by
  unfold Op.seq
  rcases m w with ⟨r, w1⟩
  cases r <;> rfl

theorem invoke_ship_cmd_eq (E : Ext) (f : ShipCmd) (ship_ptr : String) (w : World) :
    invoke_ship_cmd E f ship_ptr w =
      ship_cmd_body E f ship_ptr { w with calls := w.calls ++ [.ship_cmd f ship_ptr] } := rfl

theorem invoke_view_model_cmd_eq (E : Ext) (f : ViewModelCmd) (w : World) :
    invoke_view_model_cmd E f w =
      view_model_cmd_body E f { w with calls := w.calls ++ [.view_model_cmd f] } := rfl

theorem run_try_quit (E : Ext) (w : World) (hq : w.cin.extract_word.1 = "quit") :
    run_try E w = (.ok .done, (quit_cmd { w with cin := w.cin.extract_word.2 }).2) := by
  simp [run_try, Op.bind_eq, Op.seq, read_word, hq, Op.pure_eq, Op.ret, quit_cmd]

theorem run_try_ship (E : Ext) (w : World) (hq : w.cin.extract_word.1 ≠ "quit")
    (hp : w.model.is_ship_present w.cin.extract_word.1 = true) :
    run_try E w =
      Op.seq (Op.lift (get_func_ptr ship_cmds w.cin.extract_word.2.extract_word.1))
        (fun f => Op.seq (invoke_ship_cmd E f w.cin.extract_word.1) (fun _ => Op.ret .next))
        { w with cin := w.cin.extract_word.2.extract_word.2 } := by
  obtain ⟨s, hg⟩ : ∃ s, w.model.get_ship_ptr E w.cin.extract_word.1 = .ok s := by
    unfold Model.is_ship_present at hp
    unfold Model.get_ship_ptr
    cases hl : w.model.ships.lookup w.cin.extract_word.1 with
    | none => rw [hl] at hp; exact absurd hp (by simp)
    | some s => exact ⟨s, rfl⟩
  simp [run_try, Op.bind_eq, Op.seq, read_word, hq, hp, get_ship_ptr, hg, Op.pure_eq]

theorem run_try_view_model (E : Ext) (w : World) (hq : w.cin.extract_word.1 ≠ "quit")
    (hp : w.model.is_ship_present w.cin.extract_word.1 = false) :
    run_try E w =
      Op.seq (Op.lift (get_func_ptr view_model_cmds w.cin.extract_word.1))
        (fun f => Op.seq (invoke_view_model_cmd E f) (fun _ => Op.ret .next))
        { w with cin := w.cin.extract_word.2 } := by
  simp [run_try, Op.bind_eq, Op.seq, read_word, hq, hp, Op.pure_eq]

theorem handlers_view_model_cmd_body (E : Ext) (f : ViewModelCmd) (w : World) :
    (view_model_cmd_body E f w).2.handlers = w.handlers := by
  by_cases hf : f = .go_cmd
  · subst hf
    simp [view_model_cmd_body, go_cmd, Model_update, World.handlers, List.filter_append,
      Call.is_handler]
  · exact (plain_view_model_cmd_body E f hf w).2.1

/-- C1: what the `try` block of `run` does with a command.  If the first word is
`quit`, `quit_cmd` runs (it writes `Done`) and the loop ends.  Otherwise, if the first
word names a ship of the `Model`, the handler that `ship_cmds` has for the second word
is called once on that ship: the block is the body of that handler, run on the state
after the two words were read, and one handler is entered in the history; if the
table has none, `Error "Unrecognized command!"` is thrown and no handler is called.
Otherwise the same holds for the first word and `view_model_cmds`.  The pointers of
the two tables stand for the member functions of their names.  `get_func_ptr` returns
`f` exactly when the table maps the word to `f`, and throws `Error "Unrecognized
command!"` exactly when the word is no key. -/
theorem run_dispatch (E : Ext) (w : World) :
    (w.cin.extract_word.1 = "quit" →
      run_try E w =
        (.ok .done, { w with
          cin := w.cin.extract_word.2
          cout := w.cout ++ [.line "Done"]
          calls := w.calls ++ [.quit_cmd] }) ∧
      (run_try E w).2.handlers = w.handlers ++ [.quit_cmd]) ∧
    (w.cin.extract_word.1 ≠ "quit" →
      w.model.is_ship_present w.cin.extract_word.1 = true →
      (∀ f, (w.cin.extract_word.2.extract_word.1, f) ∈ ship_cmds →
        run_try E w =
          Op.seq (ship_cmd_body E f w.cin.extract_word.1) (fun _ => Op.ret Flow.next)
            { w with
              cin := w.cin.extract_word.2.extract_word.2
              calls := w.calls ++ [.ship_cmd f w.cin.extract_word.1] } ∧
        run_try E w =
          Op.seq (invoke_ship_cmd E f w.cin.extract_word.1) (fun _ => Op.ret Flow.next)
            { w with cin := w.cin.extract_word.2.extract_word.2 } ∧
        (run_try E w).2.handlers = w.handlers ++ [.ship_cmd f w.cin.extract_word.1]) ∧
      ((∀ f, (w.cin.extract_word.2.extract_word.1, f) ∉ ship_cmds) →
        run_try E w =
          (.error (.Error "Unrecognized command!"),
            { w with cin := w.cin.extract_word.2.extract_word.2 }))) ∧
    (w.cin.extract_word.1 ≠ "quit" →
      w.model.is_ship_present w.cin.extract_word.1 = false →
      (∀ f, (w.cin.extract_word.1, f) ∈ view_model_cmds →
        run_try E w =
          Op.seq (view_model_cmd_body E f) (fun _ => Op.ret Flow.next)
            { w with
              cin := w.cin.extract_word.2
              calls := w.calls ++ [.view_model_cmd f] } ∧
        run_try E w =
          Op.seq (invoke_view_model_cmd E f) (fun _ => Op.ret Flow.next)
            { w with cin := w.cin.extract_word.2 } ∧
        (run_try E w).2.handlers = w.handlers ++ [.view_model_cmd f]) ∧
      ((∀ f, (w.cin.extract_word.1, f) ∉ view_model_cmds) →
        run_try E w =
          (.error (.Error "Unrecognized command!"), { w with cin := w.cin.extract_word.2 }))) ∧
    (∀ (word : String) (f : ShipCmd),
      get_func_ptr ship_cmds word = .ok f ↔ (word, f) ∈ ship_cmds) ∧
    (∀ (word : String) (f : ViewModelCmd),
      get_func_ptr view_model_cmds word = .ok f ↔ (word, f) ∈ view_model_cmds) ∧
    (∀ word : String, get_func_ptr ship_cmds word = .error (.Error "Unrecognized command!") ↔
      ∀ f, (word, f) ∉ ship_cmds) ∧
    (∀ word : String,
      get_func_ptr view_model_cmds word = .error (.Error "Unrecognized command!") ↔
        ∀ f, (word, f) ∉ view_model_cmds) ∧
    (w.cin.extract_word.1 = "quit" → ∀ fuel,
      run E (fuel + 1) w =
        some { w with
          cin := w.cin.extract_word.2
          cout := w.cout ++ [.prompt w.model.time, .line "Done"]
          calls := w.calls ++ [.quit_cmd] }) ∧
    (ship_cmd_body E .course_cmd = course_cmd E ∧
      ship_cmd_body E .position_cmd = position_cmd E ∧
      ship_cmd_body E .destination_cmd = destination_cmd E ∧
      ship_cmd_body E .load_at_cmd = load_at_cmd E ∧
      ship_cmd_body E .unload_at_cmd = unload_at_cmd E ∧
      ship_cmd_body E .dock_at_cmd = dock_at_cmd E ∧
      ship_cmd_body E .attack_cmd = attack_cmd E ∧
      ship_cmd_body E .refuel_cmd = refuel_cmd E ∧
      ship_cmd_body E .stop_cmd = stop_cmd E ∧
      ship_cmd_body E .stop_attack_cmd = stop_attack_cmd E) ∧
    (view_model_cmd_body E .default_cmd = default_cmd E ∧
      view_model_cmd_body E .size_cmd = size_cmd E ∧
      view_model_cmd_body E .zoom_cmd = zoom_cmd E ∧
      view_model_cmd_body E .pan_cmd = pan_cmd E ∧
      view_model_cmd_body E .show_cmd = show_cmd ∧
      view_model_cmd_body E .status_cmd = status_cmd ∧
      view_model_cmd_body E .go_cmd = go_cmd E ∧
      view_model_cmd_body E .create_cmd = create_cmd E ∧
      view_model_cmd_body E .open_map_view_cmd = open_map_view_cmd ∧
      view_model_cmd_body E .close_map_view_cmd = close_map_view_cmd ∧
      view_model_cmd_body E .open_sailing_view = open_sailing_view ∧
      view_model_cmd_body E .close_sailing_view = close_sailing_view ∧
      view_model_cmd_body E .open_bridge_view = open_bridge_view E ∧
      view_model_cmd_body E .close_bridge_view = close_bridge_view) ∧
    (run_try sample_ext { World.start "Ajax stop\n" with
        model := { Model.empty with
          ships := [("Ajax", Ship.construct .Cruiser "Ajax" { x := 0, y := 0 })] } } =
      (.ok .next, { World.start "Ajax stop\n" with
        cin := { buf := ['\n'], fail := false }
        model := { Model.empty with
          ships := [("Ajax", ⟨.Cruiser, "Ajax", { x := 0, y := 0 }, [.stop]⟩)] }
        calls := [.ship_cmd .stop_cmd "Ajax", .Ship_op "Ajax" .stop] })) ∧
    (run_try sample_ext (World.start "open_map_view\n") =
      (.ok .next, { World.start "open_map_view\n" with
        cin := { buf := ['\n'], fail := false }
        model := { Model.empty with views := [some { id := 0, kind := .Map_view }] }
        map_view := some { id := 0, kind := .Map_view }
        views := [some { id := 0, kind := .Map_view }]
        next_view_id := 1
        calls := [.view_model_cmd .open_map_view_cmd,
          .Model_attach (some { id := 0, kind := .Map_view })] })) := by
  refine ⟨?_, ?_, ?_, ?_, ?_, ?_, ?_, ?_,
    ⟨rfl, rfl, rfl, rfl, rfl, rfl, rfl, rfl, rfl, rfl⟩,
    ⟨rfl, rfl, rfl, rfl, rfl, rfl, rfl, rfl, rfl, rfl, rfl, rfl, rfl, rfl⟩, rfl, rfl⟩
  · intro hq
    rw [run_try_quit E w hq]
    exact ⟨rfl, handlers_append_one _ _ rfl⟩
  · intro hq hp
    rw [run_try_ship E w hq hp]
    constructor
    · intro f hf
      have hg := ((get_func_ptr_spec ship_cmds w.cin.extract_word.2.extract_word.1
        ship_cmds_keys).1 f).mpr hf
      have heq : Op.seq (Op.lift (get_func_ptr ship_cmds w.cin.extract_word.2.extract_word.1))
          (fun f =>
            Op.seq (invoke_ship_cmd E f w.cin.extract_word.1) (fun _ => Op.ret Flow.next))
          { w with cin := w.cin.extract_word.2.extract_word.2 } =
          Op.seq (invoke_ship_cmd E f w.cin.extract_word.1) (fun _ => Op.ret Flow.next)
            { w with cin := w.cin.extract_word.2.extract_word.2 } := by
        rw [hg]
        rfl
      rw [heq]
      refine ⟨rfl, rfl, ?_⟩
      rw [seq_ret_snd, invoke_ship_cmd_eq, (plain_ship_cmd_body E f _ _).2.1]
      exact handlers_append_one _ _ rfl
    · intro hf
      have hg := (get_func_ptr_spec ship_cmds w.cin.extract_word.2.extract_word.1
        ship_cmds_keys).2.1.mpr hf
      rw [hg]
      rfl
  · intro hq hp
    rw [run_try_view_model E w hq hp]
    constructor
    · intro f hf
      have hg := ((get_func_ptr_spec view_model_cmds w.cin.extract_word.1
        view_model_cmds_keys).1 f).mpr hf
      have heq : Op.seq (Op.lift (get_func_ptr view_model_cmds w.cin.extract_word.1))
          (fun f =>
            Op.seq (invoke_view_model_cmd E f) (fun _ => Op.ret Flow.next))
          { w with cin := w.cin.extract_word.2 } =
          Op.seq (invoke_view_model_cmd E f) (fun _ => Op.ret Flow.next)
            { w with cin := w.cin.extract_word.2 } := by
        rw [hg]
        rfl
      rw [heq]
      refine ⟨rfl, rfl, ?_⟩
      rw [seq_ret_snd, invoke_view_model_cmd_eq, handlers_view_model_cmd_body]
      exact handlers_append_one _ _ rfl
    · intro hf
      have hg := (get_func_ptr_spec view_model_cmds w.cin.extract_word.1
        view_model_cmds_keys).2.1.mpr hf
      rw [hg]
      rfl
  · exact fun word => (get_func_ptr_spec ship_cmds word ship_cmds_keys).1
  · exact fun word => (get_func_ptr_spec view_model_cmds word view_model_cmds_keys).1
  · exact fun word => (get_func_ptr_spec ship_cmds word ship_cmds_keys).2.1
  · exact fun word => (get_func_ptr_spec view_model_cmds word view_model_cmds_keys).2.1
  · intro hq fuel
    have hq2 : (write_prompt w).cin.extract_word.1 = "quit" := hq
    unfold run run_round
    rw [run_try_quit E (write_prompt w) hq2]
    simp [quit_cmd, write_prompt]

/-- C7: `go_cmd` calls `Model::update` exactly once (and the time advances by one);
no other handler of `view_model_cmds`, no handler of `ship_cmds` and not `quit_cmd`
calls it or changes the time; so a handler invoked by `run` calls it once when it is
`go_cmd` and never otherwise, and a command `go` (no ship being named `go`) calls it
exactly once. -/
theorem only_go_cmd_updates (E : Ext) (w : World) :
    ((go_cmd E w).1 = .ok () ∧ (go_cmd E w).2.updates = w.updates + 1 ∧
      (go_cmd E w).2.model.time = w.model.time + 1) ∧
    (∀ f : ViewModelCmd, f ≠ .go_cmd →
      (view_model_cmd_body E f w).2.updates = w.updates ∧
      (view_model_cmd_body E f w).2.model.time = w.model.time) ∧
    (∀ (f : ShipCmd) (ship_ptr : String),
      (ship_cmd_body E f ship_ptr w).2.updates = w.updates ∧
      (ship_cmd_body E f ship_ptr w).2.model.time = w.model.time) ∧
    ((quit_cmd w).2.updates = w.updates ∧ (quit_cmd w).2.model.time = w.model.time) ∧
    (∀ f : ViewModelCmd,
      (invoke_view_model_cmd E f w).2.updates = w.updates + (if f = .go_cmd then 1 else 0)) ∧
    (w.cin.extract_word.1 = "go" → w.model.is_ship_present "go" = false →
      (run_try E w).2.updates = w.updates + 1) := by
  have hgo : (go_cmd E w).2.updates = w.updates + 1 := by
    simp [go_cmd, Model_update, World.updates, List.count_append]
  refine ⟨⟨rfl, hgo, rfl⟩, ?_, ?_, ?_, ?_, ?_⟩
  · intro f hf
    exact ⟨(plain_view_model_cmd_body E f hf w).2.2, (plain_view_model_cmd_body E f hf w).1⟩
  · intro f ship_ptr
    exact ⟨(plain_ship_cmd_body E f ship_ptr w).2.2, (plain_ship_cmd_body E f ship_ptr w).1⟩
  · exact ⟨updates_append_handler w .quit_cmd (by simp), rfl⟩
  · intro f
    rw [invoke_view_model_cmd_eq]
    by_cases hf : f = .go_cmd
    · subst hf
      simp [view_model_cmd_body, go_cmd, Model_update, World.updates, List.count_append]
    · rw [(plain_view_model_cmd_body E f hf _).2.2, if_neg hf,
        updates_append_handler w _ (by simp)]
      rfl
  · intro hw hp
    have hq : w.cin.extract_word.1 ≠ "quit" := by rw [hw]; decide
    rw [← hw] at hp
    rw [run_try_view_model E w hq hp, hw]
    have hg : get_func_ptr view_model_cmds "go" = .ok .go_cmd := by decide
    rw [hg]
    simp [Op.lift, Op.seq, Op.ret, invoke_view_model_cmd_eq, view_model_cmd_body, go_cmd,
      Model_update, World.updates, List.count_append]

/-! ## Theorems: `create_cmd` -/

theorem lookup_none_not_key (ships : List (String × Ship)) (name : String)
    (h : ships.lookup name = none) : name ∉ ships.map Prod.fst := by
  intro hm
  obtain ⟨e, he, hn⟩ := List.mem_map.mp hm
  have := (lookup_eq_none_iff_not_key ships name).mp h e.2
  apply this
  rw [← hn]
  exact he

theorem add_ship_fresh (m : Model) (s : Ship) (h : m.is_name_in_use s.name = false) :
    m.add_ship s = { m with ships := m.ships ++ [(s.name, s)] } ∧
    (m.ship_names.Nodup → (m.add_ship s).ship_names.Nodup) := by
  have hp : m.is_ship_present s.name = false := by
    unfold Model.is_name_in_use at h
    rw [Bool.or_eq_false_iff] at h
    exact h.1
  have heq : m.add_ship s = { m with ships := m.ships ++ [(s.name, s)] } := by
    simp [Model.add_ship, hp]
  refine ⟨heq, ?_⟩
  intro hnd
  rw [heq]
  unfold Model.ship_names at hnd ⊢
  simp only [List.map_append, List.map_cons, List.map_nil]
  have hnot : s.name ∉ m.ships.map Prod.fst := by
    apply lookup_none_not_key
    unfold Model.is_ship_present at hp
    cases hl : m.ships.lookup s.name with
    | none => rfl
    | some v => rw [hl] at hp; simp at hp
  rw [List.nodup_append]
  refine ⟨hnd, List.nodup_singleton _, ?_⟩
  intro a ha hb
  rw [List.mem_singleton] at hb
  subst hb
  exact hnot ha

/-- C3: `create_cmd` reads a name, a type word and two coordinates.  It calls
`add_ship` (once, with the ship of the kind, name and position read, which is then
entered under its name) if and only if the name has at least 2 characters, is not in
use, the type word is a known kind and both coordinates are numbers.  In every other
case it throws an `Error` (`"Name is too short!"` first, then `"Name is invalid!"`),
`add_ship` is not called and the `Model` is unchanged.  Unique ship names stay unique. -/
theorem create_cmd_spec (E : Ext) (w : World) (ship_name ship_type : String)
    (cin1 cin2 cin3 cin4 : Istream) (x y : Option Double)
    (h1 : w.cin.extract_word = (ship_name, cin1))
    (h2 : cin1.extract_word = (ship_type, cin2))
    (h3 : cin2.extract_double E = (x, cin3))
    (h4 : cin3.extract_double E = (y, cin4)) :
    ((∃ s, (create_cmd E w).2.calls = w.calls ++ [.Model_add_ship s]) ↔
      (2 ≤ ship_name.length ∧ w.model.is_name_in_use ship_name = false ∧
        (∃ k : ShipKind, ship_type = k.type_name) ∧ x ≠ none ∧ y ≠ none)) ∧
    (∀ (k : ShipKind) (vx vy : Double),
      2 ≤ ship_name.length → w.model.is_name_in_use ship_name = false →
      ship_type = k.type_name → x = some vx → y = some vy →
      create_cmd E w =
        (.ok (), { w with
          cin := cin4
          model := { w.model with ships := w.model.ships ++
            [(ship_name, Ship.construct k ship_name { x := vx, y := vy })] }
          calls := w.calls ++
            [.Model_add_ship (Ship.construct k ship_name { x := vx, y := vy })] })) ∧
    (¬ (2 ≤ ship_name.length ∧ w.model.is_name_in_use ship_name = false ∧
        (∃ k : ShipKind, ship_type = k.type_name) ∧ x ≠ none ∧ y ≠ none) →
      (∃ msg, (create_cmd E w).1 = .error (.Error msg)) ∧
      (create_cmd E w).2.model = w.model ∧ (create_cmd E w).2.calls = w.calls) ∧
    (ship_name.length < 2 →
      (create_cmd E w).1 = .error (.Error "Name is too short!")) ∧
    (2 ≤ ship_name.length → w.model.is_name_in_use ship_name = true →
      (create_cmd E w).1 = .error (.Error "Name is invalid!")) ∧
    (w.model.ship_names.Nodup → (create_cmd E w).2.model.ship_names.Nodup) := by
  obtain ⟨p1, p2, p3, p4, p5⟩ := create_cmd_paths E w ship_name ship_type cin1 cin2 cin3 cin4
    x y h1 h2 h3 h4
  -- the successful path
  have hok : ∀ (k : ShipKind) (vx vy : Double),
      2 ≤ ship_name.length → w.model.is_name_in_use ship_name = false →
      ship_type = k.type_name → x = some vx → y = some vy →
      create_cmd E w =
        (.ok (), { w with
          cin := cin4
          model := { w.model with ships := w.model.ships ++
            [(ship_name, Ship.construct k ship_name { x := vx, y := vy })] }
          calls := w.calls ++
            [.Model_add_ship (Ship.construct k ship_name { x := vx, y := vy })] }) := by
    intro k vx vy hlen huse hk hx hy
    rw [p5 hlen huse vx vy hx hy, hk, create_ship_known]
    have hadd :=
      (add_ship_fresh w.model (Ship.construct k ship_name { x := vx, y := vy }) huse).1
    show ((.ok (), { w with
      cin := cin4
      model := w.model.add_ship (Ship.construct k ship_name { x := vx, y := vy })
      calls := w.calls ++
        [.Model_add_ship (Ship.construct k ship_name { x := vx, y := vy })] }) :
        Except Exn Unit × World) = _
    rw [hadd]
    rfl
  -- every other path
  have hbad : ¬ (2 ≤ ship_name.length ∧ w.model.is_name_in_use ship_name = false ∧
        (∃ k : ShipKind, ship_type = k.type_name) ∧ x ≠ none ∧ y ≠ none) →
      (∃ msg, (create_cmd E w).1 = .error (.Error msg)) ∧
      (create_cmd E w).2.model = w.model ∧ (create_cmd E w).2.calls = w.calls := by
    intro hnot
    by_cases hlen : ship_name.length < 2
    · rw [p1 hlen]; exact ⟨⟨_, rfl⟩, rfl, rfl⟩
    have hlen2 : 2 ≤ ship_name.length := by omega
    cases huse : w.model.is_name_in_use ship_name with
    | true => rw [p2 hlen2 huse]; exact ⟨⟨_, rfl⟩, rfl, rfl⟩
    | false =>
      cases hx : x with
      | none => rw [p3 hlen2 huse hx]; exact ⟨⟨_, rfl⟩, rfl, rfl⟩
      | some vx =>
        cases hy : y with
        | none => rw [p4 hlen2 huse (by rw [hx]; simp) hy]; exact ⟨⟨_, rfl⟩, rfl, rfl⟩
        | some vy =>
          have hunknown : ∀ k : ShipKind, ship_type ≠ k.type_name := by
            intro k hk
            exact hnot ⟨hlen2, huse, ⟨k, hk⟩, by rw [hx]; simp, by rw [hy]; simp⟩
          rw [p5 hlen2 huse vx vy hx hy, create_ship_unknown ship_name ship_type _ hunknown]
          exact ⟨⟨_, rfl⟩, rfl, rfl⟩
  refine ⟨?_, hok, hbad, ?_, ?_, ?_⟩
  · constructor
    · intro hadd
      by_contra hnot
      obtain ⟨s, hs⟩ := hadd
      rw [(hbad hnot).2.2] at hs
      exact absurd hs (by simp)
    · rintro ⟨hlen, huse, ⟨k, hk⟩, hx, hy⟩
      obtain ⟨vx, hvx⟩ := Option.ne_none_iff_exists'.mp hx
      obtain ⟨vy, hvy⟩ := Option.ne_none_iff_exists'.mp hy
      rw [hok k vx vy hlen huse hk hvx hvy]
      exact ⟨_, rfl⟩
  · intro hlen
    rw [p1 hlen]
  · intro hlen huse
    rw [p2 hlen huse]
  · intro hnd
    by_cases hgood : (2 ≤ ship_name.length ∧ w.model.is_name_in_use ship_name = false ∧
        (∃ k : ShipKind, ship_type = k.type_name) ∧ x ≠ none ∧ y ≠ none)
    · obtain ⟨hlen, huse, ⟨k, hk⟩, hx, hy⟩ := hgood
      obtain ⟨vx, hvx⟩ := Option.ne_none_iff_exists'.mp hx
      obtain ⟨vy, hvy⟩ := Option.ne_none_iff_exists'.mp hy
      rw [p5 hlen huse vx vy hvx hvy, hk, create_ship_known]
      exact (add_ship_fresh w.model (Ship.construct k ship_name { x := vx, y := vy }) huse).2 hnd
    · rw [(hbad hgood).2.1]
      exact hnd

/-- C3, at the command `create Ajax Cruiser 10 20` on an empty `Model`. -/
theorem create_cmd_spec_witness :
    (World.start "Ajax Cruiser 10 20").cin.extract_word =
      ("Ajax", { buf := " Cruiser 10 20".data, fail := false }) ∧
    ({ buf := " Cruiser 10 20".data, fail := false } : Istream).extract_word =
      ("Cruiser", { buf := " 10 20".data, fail := false }) ∧
    ({ buf := " 10 20".data, fail := false } : Istream).extract_double sample_ext =
      (some 10, { buf := " 20".data, fail := false }) ∧
    ({ buf := " 20".data, fail := false } : Istream).extract_double sample_ext =
      (some 20, { buf := [], fail := false }) ∧
    create_cmd sample_ext (World.start "Ajax Cruiser 10 20") =
      (.ok (), { World.start "Ajax Cruiser 10 20" with
        cin := { buf := [], fail := false }
        model := { Model.empty with
          ships := [("Ajax", Ship.construct .Cruiser "Ajax" { x := 10, y := 20 })] }
        calls := [.Model_add_ship (Ship.construct .Cruiser "Ajax" { x := 10, y := 20 })] }) :=
  ⟨by rfl, by rfl, by rfl, by rfl,
    (create_cmd_spec sample_ext (World.start "Ajax Cruiser 10 20") "Ajax" "Cruiser"
      { buf := " Cruiser 10 20".data, fail := false } { buf := " 10 20".data, fail := false }
      { buf := " 20".data, fail := false } { buf := [], fail := false } (some 10) (some 20)
      (by rfl) (by rfl) (by rfl) (by rfl)).2.1 .Cruiser 10 20 (by decide) (by rfl) (by rfl)
      (by rfl) (by rfl)⟩

/-! ## Theorems: the loop of `run` -/

theorem discard_line_without_newline (fuel : Nat) (s : Istream) (h : '\n' ∉ s.buf) :
    discard_line fuel s = none := by
  induction fuel generalizing s with
  | zero => rfl
  | succ n ih =>
    unfold discard_line
    obtain ⟨buf, fail⟩ := s
    cases fail with
    | true =>
      simp only [Istream.get, if_true]
      exact ih _ h
    | false =>
      cases buf with
      | nil =>
        simp only [Istream.get]
        exact ih _ (by simp)
      | cons c cs =>
        have hc : c ≠ '\n' := fun hc => h (by rw [hc]; exact List.mem_cons_self _ _)
        have hcs : '\n' ∉ cs := fun hm => h (List.mem_cons_of_mem _ hm)
        simp only [Istream.get, Bool.false_eq_true, if_false, Option.some.injEq, hc]
        exact ih _ hcs

theorem discard_line_with_newline (pre post : List Char) (h : '\n' ∉ pre) (fuel : Nat)
    (hfuel : pre.length < fuel) :
    discard_line fuel { buf := pre ++ '\n' :: post, fail := false } =
      some { buf := post, fail := false } := by
  induction pre generalizing fuel with
  | nil =>
    cases fuel with
    | zero => exact absurd hfuel (by simp)
    | succ n => simp [discard_line, Istream.get]
  | cons c cs ih =>
    cases fuel with
    | zero => exact absurd hfuel (by simp)
    | succ n =>
      have hc : c ≠ '\n' := fun hc => h (by rw [hc]; exact List.mem_cons_self _ _)
      have hcs : '\n' ∉ cs := fun hm => h (List.mem_cons_of_mem _ hm)
      have hn : cs.length < n := by simpa using hfuel
      unfold discard_line
      simp only [Istream.get, List.cons_append, Bool.false_eq_true, if_false,
        Option.some.injEq, hc]
      exact ih hcs n hn

theorem run_stuck_after_error (E : Ext) (w w1 : World) (msg : String)
    (hthrow : run_try E (write_prompt w) = (.error (.Error msg), w1))
    (hline : '\n' ∉ w1.cin.buf) (fuel : Nat) :
    run_round E fuel w = none ∧ run E fuel w = none := by
  have hround : ∀ n, run_round E n w = none := by
    intro n
    unfold run_round
    rw [hthrow]
    simp only [recover, discard_line_without_newline n w1.cin.clear hline]
  refine ⟨hround fuel, ?_⟩
  cases fuel with
  | zero => rfl
  | succ n =>
    unfold run
    rw [hround n]

/-- C6: after the `try` block threw `Error msg`, the round of `run` writes the
message, skips the input up to and including the next newline and ends with the loop
going on, the `Model`, the views and the history of calls being as they were when the
error was thrown; this holds when a newline is left in the input.  When none is left,
the skipping loop never ends: the round, and `run`, do not return.  An exception that
is not an `Error` ends the loop after `quit_cmd`. -/
theorem error_recovery (E : Ext) (w : World) :
    (∀ (msg : String) (w1 : World),
      run_try E (write_prompt w) = (.error (.Error msg), w1) →
      (∀ pre post : List Char, w1.cin.buf = pre ++ '\n' :: post → '\n' ∉ pre →
        ∀ fuel, pre.length < fuel →
          run_round E fuel w =
            some (.next, { w1 with
              cout := w1.cout ++ [.line msg]
              cin := { buf := post, fail := false } })) ∧
      ('\n' ∉ w1.cin.buf → ∀ fuel, run_round E fuel w = none ∧ run E fuel w = none)) ∧
    (∀ (what : String) (w1 : World),
      run_try E (write_prompt w) = (.error (.other what), w1) →
      ∀ fuel, run_round E fuel w =
        some (.done, (quit_cmd { w1 with cout := w1.cout ++ [.line what] }).2)) := by
  constructor
  · intro msg w1 hthrow
    constructor
    · intro pre post hbuf hpre fuel hfuel
      unfold run_round
      rw [hthrow]
      simp only [recover, Istream.clear, hbuf,
        discard_line_with_newline pre post hpre fuel hfuel]
    · intro hline fuel
      exact run_stuck_after_error E w w1 msg hthrow hline fuel
  · intro what w1 hthrow fuel
    unfold run_round
    rw [hthrow]

/-- C6, at the input `bogus` without a newline: the unknown command throws, and
neither the round nor `run` returns, whatever the fuel; and at the input `bogus`
followed by a line `quit`: the round ends with the message written, the rest of the
line skipped and the loop going on. -/
theorem error_recovery_witness :
    run_try sample_ext (write_prompt (World.start "bogus")) =
      (.error (.Error "Unrecognized command!"),
        { write_prompt (World.start "bogus") with cin := { buf := [], fail := false } }) ∧
    (∀ fuel, run_round sample_ext fuel (World.start "bogus") = none ∧
      run sample_ext fuel (World.start "bogus") = none) ∧
    run_round sample_ext 1 (World.start "bogus\nquit") =
      some (.next, { World.start "bogus\nquit" with
        cout := [.prompt 0, .line "Unrecognized command!"]
        cin := { buf := "quit".data, fail := false } }) :=
  ⟨by rfl,
    ((error_recovery sample_ext (World.start "bogus")).1 "Unrecognized command!"
      { write_prompt (World.start "bogus") with cin := { buf := [], fail := false } }
      (by rfl)).2 (by simp),
    ((error_recovery sample_ext (World.start "bogus\nquit")).1 "Unrecognized command!"
      { write_prompt (World.start "bogus\nquit") with
        cin := { buf := "\nquit".data, fail := false } }
      (by rfl)).1 [] "quit".data (by rfl) (by simp) 1 (by decide)⟩

theorem extract_word_at_end (s : Istream) (h : s.buf = []) :
    s.extract_word.1 = "" ∧ s.extract_word.2.buf = [] := by
  obtain ⟨buf, fail⟩ := s
  simp only at h
  subst h
  cases fail <;> exact ⟨rfl, rfl⟩

theorem run_try_without_word (E : Ext) (w : World) (h1 : w.cin.extract_word.1 = "")
    (h2 : w.cin.extract_word.2.buf = []) :
    ∃ w1, run_try E w = (.error (.Error "Unrecognized command!"), w1) ∧ w1.cin.buf = [] := by
  have hq : w.cin.extract_word.1 ≠ "quit" := by
    rw [h1]
    decide
  cases hp : w.model.is_ship_present w.cin.extract_word.1 with
  | true =>
    rw [run_try_ship E w hq hp]
    have h3 := extract_word_at_end _ h2
    refine ⟨{ w with cin := w.cin.extract_word.2.extract_word.2 }, ?_, h3.2⟩
    simp only [h3.1]
    rfl
  | false =>
    rw [run_try_view_model E w hq hp]
    refine ⟨{ w with cin := w.cin.extract_word.2 }, ?_, h2⟩
    simp only [h1]
    rfl

theorem run_stuck_without_word (E : Ext) (fuel : Nat) (w : World)
    (h1 : w.cin.extract_word.1 = "") (h2 : w.cin.extract_word.2.buf = []) :
    run E fuel w = none := by
  obtain ⟨w1, hthrow, hbuf⟩ := run_try_without_word E (write_prompt w) h1 h2
  exact (run_stuck_after_error E w w1 "Unrecognized command!" hthrow
    (by rw [hbuf]; simp) fuel).2

/-- C9: on an input stream that is at its end, `run` does not return, however
many steps it is given: the command word read is empty, `Error "Unrecognized
command!"` is thrown, and the loop that skips to the next newline never ends.  So it
is on the input `go` (one line, no `quit`): after the tick no command is left. -/
theorem run_at_end_of_input (E : Ext) (fuel : Nat) :
    (∀ (w : World) (b : Bool), run E fuel { w with cin := { buf := [], fail := b } } = none) ∧
    run E fuel (World.start "go\n") = none := by
  constructor
  · intro w b
    have h := extract_word_at_end { buf := [], fail := b } rfl
    exact run_stuck_without_word E fuel _ h.1 h.2
  · cases fuel with
    | zero => rfl
    | succ n =>
      have hround : ∃ w1, run_round E n (World.start "go\n") = some (.next, w1) ∧
          w1.cin = { buf := ['\n'], fail := false } := ⟨_, rfl, rfl⟩
      obtain ⟨w1, hw1, hcin⟩ := hround
      unfold run
      rw [hw1]
      exact run_stuck_without_word E n w1 (by rw [hcin]; rfl) (by rw [hcin]; rfl)

/-! ## Theorems: the list of views -/

/-- C8: `close_sailing_view` removes `map_view`, not `sailing_view`, from `views`.
After `open_sailing_view`, `close_sailing_view` the sailing view is closed and detached
from the `Model`, yet it is still in `views` and `show` draws it; with the map view
open as well, `close_sailing_view` drops the map view from `views` while it stays open
and attached. -/
theorem close_sailing_view_keeps_view (E : Ext) :
    (run E 4 (World.start "open_sailing_view\nclose_sailing_view\nshow\nquit\n")).map
        (fun w => (w.sailing_view, w.views, w.model.views, w.calls)) =
      some (none, [some { id := 0, kind := .Sailing_view }], [],
        [.view_model_cmd .open_sailing_view,
         .Model_attach (some { id := 0, kind := .Sailing_view }),
         .view_model_cmd .close_sailing_view,
         .Model_detach (some { id := 0, kind := .Sailing_view }),
         .view_model_cmd .show_cmd,
         .View_draw (some { id := 0, kind := .Sailing_view }),
         .quit_cmd]) ∧
    (run E 4 (World.start "open_map_view\nopen_sailing_view\nclose_sailing_view\nquit\n")).map
        (fun w => (w.map_view, w.sailing_view, w.views, w.model.views)) =
      some (some { id := 0, kind := .Map_view }, none,
        [some { id := 1, kind := .Sailing_view }], [some { id := 0, kind := .Map_view }]) ∧
    (∀ w : World, w.sailing_view ≠ none →
      (close_sailing_view w).2.views = w.views.filter (fun q => q != w.map_view) ∧
      (close_sailing_view w).2.sailing_view = none ∧
      (close_sailing_view w).2.model.views =
        w.model.views.filter (fun q => q != w.sailing_view)) := by
  refine ⟨rfl, rfl, ?_⟩
  intro w hw
  simp [close_sailing_view, Op.bind_eq, Op.seq, hw, Model_detach, views_remove, Model.detach]

end ShipGame
